import Mathlib

/-!
Verification development for the stripe-commercetools connect app's payment
flow orchestration: the client-side method selector and flow orchestrator
(src/enabler/src/components/payment-element.ts, payment-flows.ts), the
server-side PayPal settlement service
(src/processor/src/services/paypal-payment.service.ts and the variant kept in
src/unnamed/part_000), and the order creation client
(src/processor/src/services/commerce-tools/order-client.ts).

External collaborators (the commercetools cart/payment/order backend, the
Stripe SDK, the PayPal SDK, the browser URL API) are modelled as oracles:
fallible responses are supplied by an environment record, and the durable
backend (carts, payment records, orders) is an explicit state threaded
through the server-side flows.  Every externally observable step of a flow
is recorded in an event trace, so ordering and callback-discipline claims
become statements about traces.
-/

namespace StripeCT

/-- Semantics of the JavaScript expression `a || b` on an optional string:
`undefined` and the empty string are falsy and fall through to `b`. -/
def jsOr (a : Option String) (b : String) : String :=
  match a with
  | some s => if s = "" then b else s
  | none => b

/-- Truthiness of an optional string, mirroring `if (x)` in JavaScript:
false for `undefined` and for the empty string. -/
def truthy (a : Option String) : Bool :=
  match a with
  | some s => s ≠ ""
  | none => false

/-- Structured sub-error of a commercetools API rejection payload
(`error.body.errors[i]`), as consumed by the order client's catch block. -/
structure SubError where
  message : Option String := none
  code : String := ""
deriving DecidableEq, Repr

/-- Body of a commercetools API rejection (`error.body`). -/
structure ErrBody where
  message : Option String := none
  errors : List SubError := []
deriving DecidableEq, Repr

/-- A thrown JavaScript error value as the flows observe it: an optional
`message` and an optional structured `body` (present on commercetools API
rejections). -/
structure Err where
  message : Option String := none
  body : Option ErrBody := none
deriving DecidableEq, Repr

/-- `new Error(s)`: an error with the given message and no structured body. -/
def Err.ofMsg (s : String) : Err := { message := some s }

/-- Monetary amount (`{ currencyCode, centAmount }`). -/
structure Money where
  currencyCode : String
  centAmount : Int
deriving DecidableEq, Repr

/-- Commercetools cart as this engine reads it: id, optimistic-concurrency
version, optional customer/anonymous ids, attached payment ids, and the
total used by `getPaymentAmount`. -/
structure CartRec where
  id : String
  version : Nat
  customerId : Option String := none
  anonymousId : Option String := none
  paymentIds : List String := []
  total : Money := { currencyCode := "USD", centAmount := 0 }
deriving DecidableEq, Repr

/-- Transaction entry of a payment draft (`{ type, amount, state,
interactionId }`), as built by `capturePayPalOrder`. -/
structure TransactionDraft where
  type : String
  amount : Money
  state : String
  interactionId : String
deriving DecidableEq, Repr

/-- Constant imported from `dtos/operations/payment-intents.dto`
(not under src/); the commercetools transaction type names. -/
def PaymentTransactions.AUTHORIZATION : String := "Authorization"

/-- Constant imported from `dtos/operations/payment-intents.dto`
(not under src/); the commercetools charge transaction type name. -/
def PaymentTransactions.CHARGE : String := "Charge"

/-- Constant imported from `dtos/stripe-payment.dto` (not under src/);
the successful-authorization transaction state. -/
def PaymentOutcome.AUTHORIZED : String := "Authorized"

/-- Payment draft passed to `ctPaymentService.createPayment` by
`capturePayPalOrder`. -/
structure PaymentDraft where
  amountPlanned : Money
  interfaceId : String
  paymentInterface : String
  method : String
  customer : Option String := none
  anonymousId : Option String := none
  transactions : List TransactionDraft
deriving DecidableEq, Repr

/-- Durable payment record created by the backend: a fresh sequence number
`num` (modelling the backend-assigned unique id of each created resource)
together with the draft it was created from. -/
structure PaymentRec where
  num : Nat
  draft : PaymentDraft
deriving DecidableEq, Repr

/-- Provider order id the payment record carries (`interfaceId`). -/
def PaymentRec.interfaceId (p : PaymentRec) : String := p.draft.interfaceId

/-- Rendering of the backend-assigned payment id (`ctPayment.id`). -/
def paymentIdStr (p : PaymentRec) : String := "ct-payment-" ++ toString p.num

/-- Order-creation request body posted by `createOrderFromCart`:
`{ cart: { id }, shipmentState, orderState, version, paymentState }`. -/
structure OrderDraft where
  cartId : String
  shipmentState : String
  orderState : String
  version : Nat
  paymentState : String
deriving DecidableEq, Repr

/-- Durable order record returned by the backend orders endpoint. -/
structure OrderRec where
  id : String
  orderNumber : Option String := none
  cartId : String
  orderState : String
  paymentState : String
  shipmentState : String
deriving DecidableEq, Repr

/-- Response of the settlement endpoint (`PayPalCaptureResponseSchemaDTO`). -/
structure CaptureResponse where
  orderId : String
  status : String
  paymentReference : String
  ctOrderId : String
  orderNumber : Option String := none
  merchantReturnUrl : Option String := none
deriving DecidableEq, Repr

/-- Completion payload handed to `onComplete` (`PaymentResult`): on the
card flows `orderId`/`orderNumber` stay absent (`none`). -/
structure PaymentResult where
  isSuccess : Bool
  paymentReference : String
  paymentIntent : String
  orderId : Option String := none
  orderNumber : Option String := none
deriving DecidableEq, Repr

/-- Data returned by `api.getPayment` and consumed whole by
`stripe.confirmStripePayment`. -/
structure PaymentRequestData where
  cartId : Option String := none
  clientSecret : String
  billingAddress : Option String := none
  merchantReturnUrl : Option String := none
  paymentReference : String
deriving DecidableEq, Repr

/-- Confirmation object returned by the Stripe SDK (`{ id }`). -/
structure StripeIntent where
  id : String
deriving DecidableEq, Repr

/-- Body of `api.confirmPaymentIntent`
(`{ paymentIntentId, paymentReference }`). -/
structure ConfirmPaymentIntentRequest where
  paymentIntentId : String
  paymentReference : String
deriving DecidableEq, Repr

/-- Data returned by `api.createSetupIntent` and passed to
`stripe.confirmStripeSetupIntent`. -/
structure SetupIntentData where
  clientSecret : String
  merchantReturnUrl : Option String := none
  billingAddress : Option String := none
deriving DecidableEq, Repr

/-- Response of `api.createSubscriptionFromSetupIntent`. -/
structure SubscriptionCreated where
  subscriptionId : String
  paymentReference : String
deriving DecidableEq, Repr

/-- Body of `api.confirmSubscriptionPayment`; the setup flow omits
`paymentIntentId`, the subscription flow supplies it. -/
structure ConfirmSubscriptionRequest where
  subscriptionId : String
  paymentReference : String
  paymentIntentId : Option String := none
deriving DecidableEq, Repr

/-- Response of `api.createSubscription`. -/
structure SubscriptionData where
  cartId : String
  clientSecret : String
  billingAddress : Option String := none
  merchantReturnUrl : Option String := none
  paymentReference : String
  subscriptionId : String
deriving DecidableEq, Repr

/-- PayPal configuration fetched by the composite widget
(`PayPalConfigResponseSchemaDTO`): `amount` is the cart total in cents. -/
structure PayPalConfig where
  clientId : String
  environment : String
  currency : String
  amount : Int
deriving DecidableEq, Repr

/-- Request passed to `actions.order.create` by the PayPal button's
`createOrder` callback; `value` is the decimal amount `amount / 100`. -/
structure ProviderOrderReq where
  intent : String
  referenceId : String
  description : String
  currencyCode : String
  value : ℚ
deriving DecidableEq, Repr

/-- Browser `URL` object, reduced to the parts the redirect code touches:
a base plus the appended search parameters. -/
structure URLObj where
  base : String
  params : List (String × String) := []
deriving DecidableEq, Repr

/-- `url.searchParams.append(k, v)`. -/
def URLObj.addParam (u : URLObj) (k v : String) : URLObj :=
  { u with params := u.params ++ [(k, v)] }

/-- `url.toString()`, rendered as base plus serialized parameters. -/
def URLObj.render (u : URLObj) : String :=
  u.base ++ (u.params.foldl (fun acc kv => acc ++ "&" ++ kv.1 ++ "=" ++ kv.2) "")

/-- Declared payment mode of the orchestrator (`"payment" | "subscription"
| "setup"`), fixed at construction. -/
inductive PaymentMode where
  | payment
  | subscription
  | setup
deriving DecidableEq, Repr

/-- One externally observable step of a flow: a call to a collaborator or
an invocation of a checkout callback.  Constructors are labelled by call
site. -/
inductive Event where
  | elementsSubmitCall
  | getPaymentCall
  | confirmStripePaymentCall (data : PaymentRequestData)
  | confirmPaymentIntentCall (req : ConfirmPaymentIntentRequest)
  | createSetupIntentCall
  | confirmStripeSetupIntentCall (data : SetupIntentData)
  | createSubscriptionFromSetupIntentCall (setupIntentId : String)
  | confirmSubscriptionPaymentCall (req : ConfirmSubscriptionRequest)
  | createSubscriptionCall
  | captureApiCall (paypalOrderId : String)
  | getCartCall (id : Option String)
  | getPaymentAmountCall (cartId : String)
  | createPaymentCall (draft : PaymentDraft)
  | addPaymentCall (cartId : String) (version : Nat) (paymentId : String)
  | orderGetCartCall (id : String)
  | postOrderCall (draft : OrderDraft)
  | providerOrderCreateCall (req : ProviderOrderReq)
  | onCompleteCb (result : PaymentResult)
  | onErrorCb (e : Err)
  | redirectEv (url : String)
deriving DecidableEq, Repr

/-- Whether an event is an invocation of the completion callback. -/
def Event.isComplete : Event → Bool
  | .onCompleteCb _ => true
  | _ => false

/-- Whether an event is an invocation of the error callback. -/
def Event.isError : Event → Bool
  | .onErrorCb _ => true
  | _ => false

/-- Number of completion-callback invocations in a trace. -/
def completions (tr : List Event) : Nat := tr.countP (fun e => e.isComplete)

/-- Number of error-callback invocations in a trace. -/
def errorCbs (tr : List Event) : Nat := tr.countP (fun e => e.isError)

/-- Number of occurrences of a given event in a trace. -/
def countEv (x : Event) (tr : List Event) : Nat :=
  tr.countP (fun e => decide (e = x))

/-- Durable state of the commercetools backend as the settlement flows touch
it: the carts, the created payment records, the created orders, and a tick
counting backend operations (used to address fault injection). -/
structure Backend where
  carts : List CartRec
  payments : List PaymentRec := []
  orders : List OrderRec := []
  tick : Nat := 0
deriving DecidableEq, Repr

/-- Lookup of a cart by id in the backend state. -/
def Backend.findCart (st : Backend) (cid : String) : Option CartRec :=
  st.carts.find? (fun c => c.id == cid)

/-- Request-scoped server environment: the values resolved from the fastify
request context and configuration, plus a fault oracle making the n-th
backend operation of a run fail with the given error. -/
structure ServerEnv where
  cartIdFromContext : Option String
  paymentInterfaceFromContext : Option String := none
  merchantReturnUrlFromContext : Option String := none
  configMerchantReturnUrl : String := ""
  fault : Nat → Option Err

/-- One backend operation slot: consumes a tick and applies the injected
fault, if any, instead of the operation's own behavior. -/
def opStep (env : ServerEnv) (st : Backend) (f : Backend → Backend × Except Err α) :
    Backend × Except Err α :=
  match env.fault st.tick with
  | some e => ({ st with tick := st.tick + 1 }, .error e)
  | none => f { st with tick := st.tick + 1 }

/-- `ctCartService.getCart({ id })` at the transport level: fails on a
missing id, otherwise resolves to the cart lookup result (possibly null). -/
def getCartRawOp (env : ServerEnv) (st : Backend) (oid : Option String) :
    Backend × Except Err (Option CartRec) :=
  opStep env st (fun st' =>
    match oid with
    | none => (st', .error (Err.ofMsg "ct getCart: missing cart id"))
    | some i => (st', .ok (st'.findCart i)))

/-- `ctCartService.getCart({ id })` under the SDK contract the processor
service relies on: a missing cart raises instead of returning null. -/
def getCartOp (env : ServerEnv) (st : Backend) (oid : Option String) :
    Backend × Except Err CartRec :=
  match getCartRawOp env st oid with
  | (st', .error e) => (st', .error e)
  | (st', .ok none) => (st', .error (Err.ofMsg "ct getCart: cart not found"))
  | (st', .ok (some c)) => (st', .ok c)

/-- `ctCartService.getPaymentAmount({ cart })`: the planned amount computed
from the cart's total. -/
def getPaymentAmountOp (env : ServerEnv) (st : Backend) (cart : CartRec) :
    Backend × Except Err Money :=
  opStep env st (fun st' => (st', .ok cart.total))

/-- `ctPaymentService.createPayment(draft)`: appends a fresh payment record
whose sequence number models the backend-assigned unique id. -/
def createPaymentOp (env : ServerEnv) (st : Backend) (draft : PaymentDraft) :
    Backend × Except Err PaymentRec :=
  opStep env st (fun st' =>
    let p : PaymentRec := { num := st'.payments.length, draft := draft }
    ({ st' with payments := st'.payments ++ [p] }, .ok p))

/-- `ctCartService.addPayment({ resource: { id, version }, paymentId })`:
optimistic concurrency — rejects a stale version, otherwise attaches the
payment and bumps the cart version. -/
def addPaymentOp (env : ServerEnv) (st : Backend) (cartId : String)
    (version : Nat) (paymentId : String) : Backend × Except Err CartRec :=
  opStep env st (fun st' =>
    match st'.findCart cartId with
    | none => (st', .error (Err.ofMsg "ct addPayment: cart not found"))
    | some c =>
      if c.version == version then
        let c' : CartRec :=
          { c with version := c.version + 1, paymentIds := c.paymentIds ++ [paymentId] }
        ({ st' with carts := st'.carts.map (fun x => if x.id == cartId then c' else x) },
         .ok c')
      else (st', .error (Err.ofMsg "ct addPayment: concurrent modification")))

/-- `apiClient.orders().post({ body })`: optimistic concurrency on the cart
version in the body; on success appends a fresh order.  (The side effects a
real order creation has on the cart itself are not modelled; no claim
depends on them.) -/
def postOrderOp (env : ServerEnv) (st : Backend) (draft : OrderDraft) :
    Backend × Except Err OrderRec :=
  opStep env st (fun st' =>
    match st'.findCart draft.cartId with
    | none => (st', .error (Err.ofMsg "ct orders: cart not found"))
    | some c =>
      if c.version == draft.version then
        let o : OrderRec :=
          { id := "ct-order-" ++ toString st'.orders.length, orderNumber := none,
            cartId := draft.cartId, orderState := draft.orderState,
            paymentState := draft.paymentState, shipmentState := draft.shipmentState }
        ({ st' with orders := st'.orders ++ [o] }, .ok o)
      else (st', .error (Err.ofMsg "ct orders: concurrent modification")))

/-- Error shaping of `createOrderFromCart`'s catch block: extracts
`error?.body?.message || error?.message || 'Unknown error creating order'`,
concatenates structured sub-errors if present, and wraps everything in a new
error message. -/
def shapeOrderError (e : Err) : Err :=
  let errorMessage :=
    match e.body with
    | some b => jsOr b.message (jsOr e.message "Unknown error creating order")
    | none => jsOr e.message "Unknown error creating order"
  let errorDetails := match e.body with
    | some b => b.errors
    | none => []
  let detailedMessage :=
    if errorDetails.length > 0 then
      errorMessage ++ ": " ++
        String.intercalate ", " (errorDetails.map (fun s => jsOr s.message s.code))
    else errorMessage
  Err.ofMsg ("Failed to create order from cart: " ++ detailedMessage)

/-- `createOrderFromCart(cart)` from
src/processor/src/services/commerce-tools/order-client.ts: re-fetches the
cart by id, posts the order-creation request with the re-fetched version
(`shipmentState: 'Pending'`, `orderState: 'Open'`, `paymentState: 'Paid'`),
and re-raises any failure wrapped by `shapeOrderError`. -/
def createOrderFromCart (env : ServerEnv) (st : Backend) (cart : CartRec) :
    List Event × Backend × Except Err OrderRec :=
  match getCartOp env st (some cart.id) with
  | (st1, .error e) => ([.orderGetCartCall cart.id], st1, .error (shapeOrderError e))
  | (st1, .ok latestCart) =>
    let draft : OrderDraft :=
      { cartId := cart.id, shipmentState := "Pending", orderState := "Open",
        version := latestCart.version, paymentState := "Paid" }
    match postOrderOp env st1 draft with
    | (st2, .error e) =>
      ([.orderGetCartCall cart.id, .postOrderCall draft], st2, .error (shapeOrderError e))
    | (st2, .ok order) =>
      ([.orderGetCartCall cart.id, .postOrderCall draft], st2, .ok order)

/-- The payment draft `capturePayPalOrder` hands to `createPayment`: planned
amount, the PayPal order id as `interfaceId`, `paymentInterface` from
context with `'paypal'` as fallback, the customer or anonymous id spread
from the cart, and the two successful transactions (authorization and
charge) both carrying the PayPal order id as `interactionId`. -/
def mkPayPalPaymentDraft (env : ServerEnv) (amountPlanned : Money)
    (paypalOrderId : String) (cart : CartRec) : PaymentDraft :=
  { amountPlanned := amountPlanned
    interfaceId := paypalOrderId
    paymentInterface := jsOr env.paymentInterfaceFromContext "paypal"
    method := "paypal"
    customer := if truthy cart.customerId then cart.customerId else none
    anonymousId :=
      if truthy cart.customerId then none
      else if truthy cart.anonymousId then cart.anonymousId else none
    transactions :=
      [ { type := PaymentTransactions.AUTHORIZATION, amount := amountPlanned,
          state := PaymentOutcome.AUTHORIZED, interactionId := paypalOrderId },
        { type := PaymentTransactions.CHARGE, amount := amountPlanned,
          state := "Success", interactionId := paypalOrderId } ] }

/-- Common tail of both `capturePayPalOrder` variants, starting after the
cart has been fetched: compute the amount, create the payment record,
attach it to the cart at the cart's fetched version, create the order from
the post-attach cart, and assemble the response. -/
def captureTail (env : ServerEnv) (st1 : Backend) (paypalOrderId : String)
    (cart : CartRec) : List Event × Backend × Except Err CaptureResponse :=
  match getPaymentAmountOp env st1 cart with
  | (st2, .error e) => ([.getPaymentAmountCall cart.id], st2, .error e)
  | (st2, .ok amountPlanned) =>
    let draft := mkPayPalPaymentDraft env amountPlanned paypalOrderId cart
    match createPaymentOp env st2 draft with
    | (st3, .error e) =>
      ([.getPaymentAmountCall cart.id, .createPaymentCall draft], st3, .error e)
    | (st3, .ok ctPayment) =>
      match addPaymentOp env st3 cart.id cart.version (paymentIdStr ctPayment) with
      | (st4, .error e) =>
        ([.getPaymentAmountCall cart.id, .createPaymentCall draft,
          .addPaymentCall cart.id cart.version (paymentIdStr ctPayment)], st4, .error e)
      | (st4, .ok updatedCart) =>
        match createOrderFromCart env st4 updatedCart with
        | (tr5, st5, .error e) =>
          ([.getPaymentAmountCall cart.id, .createPaymentCall draft,
            .addPaymentCall cart.id cart.version (paymentIdStr ctPayment)] ++ tr5,
           st5, .error e)
        | (tr5, st5, .ok order) =>
          ([.getPaymentAmountCall cart.id, .createPaymentCall draft,
            .addPaymentCall cart.id cart.version (paymentIdStr ctPayment)] ++ tr5,
           st5,
           .ok { orderId := paypalOrderId, status := "COMPLETED",
                 paymentReference := paymentIdStr ctPayment, ctOrderId := order.id,
                 orderNumber := order.orderNumber,
                 merchantReturnUrl :=
                   some (jsOr env.merchantReturnUrlFromContext
                         env.configMerchantReturnUrl) })

namespace PayPalPaymentService

/-- `capturePayPalOrder(paypalOrderId)` from
src/processor/src/services/paypal-payment.service.ts: fetch the active
cart via the context cart id, then run the settlement tail.  The service's
catch block logs and re-throws the error unmodified, so it is the identity
on the result (logging is not traced). -/
def capturePayPalOrder (env : ServerEnv) (st : Backend) (paypalOrderId : String) :
    List Event × Backend × Except Err CaptureResponse :=
  match getCartOp env st env.cartIdFromContext with
  | (st1, .error e) => ([.getCartCall env.cartIdFromContext], st1, .error e)
  | (st1, .ok cart) =>
    match captureTail env st1 paypalOrderId cart with
    | (tr, st', r) => (.getCartCall env.cartIdFromContext :: tr, st', r)

/-- The error thrown by the guarded variant when the request context has no
resolvable cart id (`new Error('Cart ID not found in context')`); the
spec's `ContextError`. -/
def cartContextError : Err := Err.ofMsg "Cart ID not found in context"

/-- The error thrown by the guarded variant when the backend reports no
cart for the resolved id; the spec's `NotFoundError`. -/
def cartNotFoundError (cartId : String) : Err :=
  Err.ofMsg ("Cart not found: " ++ cartId)

/-- `capturePayPalOrder(paypalOrderId)` as kept in src/unnamed/part_000
(second variant): identical settlement, but with explicit guards that fail
with `cartContextError` when no cart id is resolvable from the request
context and with `cartNotFoundError` when the backend reports no cart for
the resolved id.  Logging statements are not traced. -/
def capturePayPalOrderChecked (env : ServerEnv) (st : Backend)
    (paypalOrderId : String) : List Event × Backend × Except Err CaptureResponse :=
  if truthy env.cartIdFromContext then
    let cartId := jsOr env.cartIdFromContext ""
    match getCartRawOp env st (some cartId) with
    | (st1, .error e) => ([.getCartCall (some cartId)], st1, .error e)
    | (st1, .ok none) => ([.getCartCall (some cartId)], st1, .error (cartNotFoundError cartId))
    | (st1, .ok (some cart)) =>
      match captureTail env st1 paypalOrderId cart with
      | (tr, st', r) => (.getCartCall (some cartId) :: tr, st', r)
  else ([], st, .error cartContextError)

end PayPalPaymentService

/-- Client-side oracle environment: responses of the backend api service,
the Stripe SDK, the settlement endpoint, and the browser `URL` constructor
(which throws on an unparsable string). -/
structure ClientEnv where
  elementsSubmit : Option Err
  getPayment : Except Err PaymentRequestData
  confirmStripePayment : PaymentRequestData → Except Err StripeIntent
  confirmPaymentIntent : ConfirmPaymentIntentRequest → Except Err Unit
  createSetupIntent : Except Err SetupIntentData
  confirmStripeSetupIntent : SetupIntentData → Except Err StripeIntent
  createSubscriptionFromSetupIntent : String → Except Err SubscriptionCreated
  confirmSubscriptionPayment : ConfirmSubscriptionRequest → Except Err Unit
  createSubscription : Except Err SubscriptionData
  capturePayPalOrder : String → Except Err CaptureResponse
  parseURL : String → Except Err URLObj

namespace PaymentFlows

/-- `createPayment()` from src/enabler/src/components/payment-flows.ts:
fetch the payment ref, confirm it with the Stripe SDK, confirm the intent
with the backend keyed by the Stripe confirmation id and the original
payment reference, then invoke the completion callback. -/
def createPayment (env : ClientEnv) : List Event × Except Err Unit :=
  match env.getPayment with
  | .error e => ([.getPaymentCall], .error e)
  | .ok paymentRes =>
    match env.confirmStripePayment paymentRes with
    | .error e => ([.getPaymentCall, .confirmStripePaymentCall paymentRes], .error e)
    | .ok paymentIntent =>
      let req : ConfirmPaymentIntentRequest :=
        { paymentIntentId := paymentIntent.id,
          paymentReference := paymentRes.paymentReference }
      match env.confirmPaymentIntent req with
      | .error e =>
        ([.getPaymentCall, .confirmStripePaymentCall paymentRes,
          .confirmPaymentIntentCall req], .error e)
      | .ok _ =>
        ([.getPaymentCall, .confirmStripePaymentCall paymentRes,
          .confirmPaymentIntentCall req,
          .onCompleteCb { isSuccess := true,
                          paymentReference := paymentRes.paymentReference,
                          paymentIntent := paymentIntent.id }], .ok ())

/-- `createSetupIntent()` from payment-flows.ts: create the setup intent,
confirm it with the Stripe SDK, materialize a subscription from the
confirmed setup intent, confirm that subscription's payment, then invoke
the completion callback. -/
def createSetupIntent (env : ClientEnv) : List Event × Except Err Unit :=
  match env.createSetupIntent with
  | .error e => ([.createSetupIntentCall], .error e)
  | .ok setupRes =>
    match env.confirmStripeSetupIntent setupRes with
    | .error e => ([.createSetupIntentCall, .confirmStripeSetupIntentCall setupRes], .error e)
    | .ok intent =>
      match env.createSubscriptionFromSetupIntent intent.id with
      | .error e =>
        ([.createSetupIntentCall, .confirmStripeSetupIntentCall setupRes,
          .createSubscriptionFromSetupIntentCall intent.id], .error e)
      | .ok subscription =>
        let req : ConfirmSubscriptionRequest :=
          { subscriptionId := subscription.subscriptionId,
            paymentReference := subscription.paymentReference }
        match env.confirmSubscriptionPayment req with
        | .error e =>
          ([.createSetupIntentCall, .confirmStripeSetupIntentCall setupRes,
            .createSubscriptionFromSetupIntentCall intent.id,
            .confirmSubscriptionPaymentCall req], .error e)
        | .ok _ =>
          ([.createSetupIntentCall, .confirmStripeSetupIntentCall setupRes,
            .createSubscriptionFromSetupIntentCall intent.id,
            .confirmSubscriptionPaymentCall req,
            .onCompleteCb { isSuccess := true,
                            paymentReference := subscription.paymentReference,
                            paymentIntent := intent.id }], .ok ())

/-- `createSubscription()` from payment-flows.ts: request full
subscription-creation parameters, confirm client-side with the Stripe SDK,
confirm the subscription payment with the resulting confirmation id, then
invoke the completion callback. -/
def createSubscription (env : ClientEnv) : List Event × Except Err Unit :=
  match env.createSubscription with
  | .error e => ([.createSubscriptionCall], .error e)
  | .ok sub =>
    let payData : PaymentRequestData :=
      { cartId := some sub.cartId, clientSecret := sub.clientSecret,
        billingAddress := sub.billingAddress,
        merchantReturnUrl := sub.merchantReturnUrl,
        paymentReference := sub.paymentReference }
    match env.confirmStripePayment payData with
    | .error e => ([.createSubscriptionCall, .confirmStripePaymentCall payData], .error e)
    | .ok intent =>
      let req : ConfirmSubscriptionRequest :=
        { subscriptionId := sub.subscriptionId,
          paymentReference := sub.paymentReference,
          paymentIntentId := some intent.id }
      match env.confirmSubscriptionPayment req with
      | .error e =>
        ([.createSubscriptionCall, .confirmStripePaymentCall payData,
          .confirmSubscriptionPaymentCall req], .error e)
      | .ok _ =>
        ([.createSubscriptionCall, .confirmStripePaymentCall payData,
          .confirmSubscriptionPaymentCall req,
          .onCompleteCb { isSuccess := true,
                          paymentReference := sub.paymentReference,
                          paymentIntent := intent.id }], .ok ())

/-- Body of `submit()` inside the try block: submit the collected input
with the Stripe SDK (throwing its reported error, if any), then dispatch on
the payment mode.  Returns the trace so far and the outcome reaching the
top-level catch. -/
def submitCore (env : ClientEnv) (mode : PaymentMode) : List Event × Except Err Unit :=
  match env.elementsSubmit with
  | some e => ([.elementsSubmitCall], .error e)
  | none =>
    let (tr, r) :=
      match mode with
      | .payment => createPayment env
      | .subscription => createSubscription env
      | .setup => createSetupIntent env
    (.elementsSubmitCall :: tr, r)

/-- `submit()` from payment-flows.ts: the whole sequence runs inside one
try/catch whose catch invokes the error callback with the caught error. -/
def submit (env : ClientEnv) (mode : PaymentMode) : List Event :=
  match submitCore env mode with
  | (tr, .ok _) => tr
  | (tr, .error e) => tr ++ [.onErrorCb e]

/-- Continuation of `createPayPalPayment` after the settlement api call
returned: on success invoke the completion callback with the settlement
result, then, when a merchant return url is present, build the redirect url
(the `URL` constructor may throw) and navigate; any error caught by the
surrounding try/catch goes to the error callback. -/
def createPayPalPaymentCont (env : ClientEnv) (paypalOrderId : String)
    (res : Except Err CaptureResponse) : List Event :=
  match res with
  | .error e => [.onErrorCb e]
  | .ok result =>
    let completeEv : Event :=
      .onCompleteCb { isSuccess := true, paymentReference := result.paymentReference,
                      paymentIntent := paypalOrderId, orderId := some result.ctOrderId,
                      orderNumber := result.orderNumber }
    if truthy result.merchantReturnUrl then
      match env.parseURL (jsOr result.merchantReturnUrl "") with
      | .error e => [completeEv, .onErrorCb e]
      | .ok u0 =>
        let u := ((((u0.addParam "paymentReference" result.paymentReference)
          |>.addParam "orderId" result.ctOrderId)
          |>.addParam "orderNumber" (jsOr result.orderNumber ""))
          |>.addParam "paymentMethod" "paypal")
          |>.addParam "status" "completed"
        [completeEv, .redirectEv u.render]
    else [completeEv]

/-- `createPayPalPayment(paypalOrderId)` from payment-flows.ts: call the
settlement endpoint, then run the continuation above.  A rejected endpoint
call (the transport maps a server-side failure to a rejected promise)
reaches the catch and the error callback. -/
def createPayPalPayment (env : ClientEnv) (paypalOrderId : String) : List Event :=
  .captureApiCall paypalOrderId ::
    createPayPalPaymentCont env paypalOrderId (env.capturePayPalOrder paypalOrderId)

end PaymentFlows

/-- The end-to-end alternative-wallet settlement: the server's
`capturePayPalOrder` runs against the backend, and its outcome (the
response, or the error the transport re-raises client-side) feeds
`createPayPalPayment`'s continuation.  The trace interleaves the client's
api call, the server's backend calls, and the client's callbacks in
execution order. -/
def settlement (cenv : ClientEnv) (senv : ServerEnv) (st : Backend)
    (paypalOrderId : String) : List Event × Backend :=
  match PayPalPaymentService.capturePayPalOrder senv st paypalOrderId with
  | (tr, st', res) =>
    (.captureApiCall paypalOrderId ::
      (tr ++ PaymentFlows.createPayPalPaymentCont cenv paypalOrderId res), st')

namespace PaymentElementComponent

/-- DOM affordances the selector mutates, from
src/enabler/src/components/payment-element.ts.  The `has*` flags model
`document.getElementById` possibly returning null (each mutation in the
source is guarded by such a check). -/
structure Dom where
  hasPaypalOption : Bool := true
  hasPaypalWrapper : Bool := true
  hasStripeContainer : Bool := true
  paypalOptionSelected : Bool := false
  paypalWrapperDisplay : String := "none"
  stripeOpacity : String := "1"
  stripePointerEvents : String := "auto"
deriving DecidableEq, Repr

/-- Selection state of the composite widget: the `isPayPalSelected` flag of
`PaymentElementComponent` plus the DOM it mutates. -/
structure ElementState where
  isPayPalSelected : Bool := false
  dom : Dom := {}
deriving DecidableEq, Repr

/-- `selectPayPal()`: mark PayPal selected, show its button wrapper, and
dim and block the Stripe container. -/
def selectPayPal (s : ElementState) : ElementState :=
  let s := { s with isPayPalSelected := true }
  let dom := s.dom
  let dom := if dom.hasPaypalOption then { dom with paypalOptionSelected := true } else dom
  let dom := if dom.hasPaypalWrapper then { dom with paypalWrapperDisplay := "block" } else dom
  let dom :=
    if dom.hasStripeContainer then
      { dom with stripeOpacity := "0.5", stripePointerEvents := "none" }
    else dom
  { s with dom := dom }

/-- `deselectPayPal()`: clear the selection, hide the PayPal button
wrapper, and restore the Stripe container's opacity and pointer events. -/
def deselectPayPal (s : ElementState) : ElementState :=
  let s := { s with isPayPalSelected := false }
  let dom := s.dom
  let dom := if dom.hasPaypalOption then { dom with paypalOptionSelected := false } else dom
  let dom := if dom.hasPaypalWrapper then { dom with paypalWrapperDisplay := "none" } else dom
  let dom :=
    if dom.hasStripeContainer then
      { dom with stripeOpacity := "1", stripePointerEvents := "auto" }
    else dom
  { s with dom := dom }

/-- The interactions `mount()` wires up: a click on the PayPal option, a
change event on the Stripe payment element, and a click on the Stripe
element's container. -/
inductive Interaction where
  | paypalOptionClick
  | stripeChange
  | stripeContainerClick
deriving DecidableEq, Repr

/-- Dispatch of the listeners registered in `mount()`: the PayPal option
click selects PayPal; either Stripe interaction deselects PayPal, but only
when it is currently selected. -/
def handleInteraction (s : ElementState) : Interaction → ElementState
  | .paypalOptionClick => selectPayPal s
  | .stripeChange => if s.isPayPalSelected then deselectPayPal s else s
  | .stripeContainerClick => if s.isPayPalSelected then deselectPayPal s else s

/-- The PayPal button's `onCancel` callback from `renderPayPalButton`: it
only logs — the selection state is untouched and no call or callback
event is produced. -/
def onCancelHandler (s : ElementState) : ElementState × List Event := (s, [])

/-- The error thrown by the PayPal `createOrder` callback when the
configured cart total is not positive. -/
def zeroTotalErr : Err := Err.ofMsg "Cart total must be greater than zero"

/-- The PayPal button's `createOrder` callback from `renderPayPalButton`:
computes the decimal total `amount / 100` (JavaScript number arithmetic on
integer cent amounts followed by `toFixed(2)`/`parseFloat` is exact, so it
is modelled over ℚ), raises on a non-positive total — the catch block
routes the error to the error callback and re-throws — and otherwise
creates the provider-side order via `actions.order.create`. -/
def createOrderCallback (config : PayPalConfig)
    (create : ProviderOrderReq → Except Err String) :
    List Event × Except Err String :=
  let totalValue : ℚ := (config.amount : ℚ) / 100
  if totalValue ≤ 0 then
    ([.onErrorCb zeroTotalErr], .error zeroTotalErr)
  else
    let req : ProviderOrderReq :=
      { intent := "CAPTURE", referenceId := "ORDER", description := "Order Payment",
        currencyCode := config.currency, value := totalValue }
    match create req with
    | .error e => ([.providerOrderCreateCall req, .onErrorCb e], .error e)
    | .ok oid => ([.providerOrderCreateCall req], .ok oid)

end PaymentElementComponent

deriving instance DecidableEq for Except

/-! Concrete fixtures used by witnesses and counterexamples. -/

/-- A generic thrown error used where an oracle's response is irrelevant. -/
def unusedErr : Err := Err.ofMsg "unused"

/-- A concrete provider-side validation error. -/
def wErr : Err := Err.ofMsg "card declined"

/-- A cart with one line item worth 19.99 USD, version 5, anonymous. -/
def wCart : CartRec :=
  { id := "cart-1", version := 5, anonymousId := some "anon-1",
    total := { currencyCode := "USD", centAmount := 1999 } }

/-- Backend holding just `wCart` and no payments or orders. -/
def wBackend : Backend := { carts := [wCart] }

/-- Healthy request-scoped server environment for `wBackend`. -/
def wSEnv : ServerEnv := { cartIdFromContext := some "cart-1", fault := fun _ => none }

/-- Server environment whose request context resolves no cart id. -/
def wSEnvNoCtx : ServerEnv := { cartIdFromContext := none, fault := fun _ => none }

/-- Healthy server environment pointing at a cart id the backend lacks. -/
def wSEnvGhost : ServerEnv := { cartIdFromContext := some "cart-9", fault := fun _ => none }

/-- Client environment whose every oracle rejects; variants override the
fields a scenario needs. -/
def baseCEnv : ClientEnv :=
  { elementsSubmit := none
    getPayment := .error unusedErr
    confirmStripePayment := fun _ => .error unusedErr
    confirmPaymentIntent := fun _ => .error unusedErr
    createSetupIntent := .error unusedErr
    confirmStripeSetupIntent := fun _ => .error unusedErr
    createSubscriptionFromSetupIntent := fun _ => .error unusedErr
    confirmSubscriptionPayment := fun _ => .error unusedErr
    createSubscription := .error unusedErr
    capturePayPalOrder := fun _ => .error unusedErr
    parseURL := fun _ => .error unusedErr }

/-- Client environment realizing the spec's payment-mode scenario: the
backend issues `pr_1`/`cs_1` and Stripe confirms with `pi_1`. -/
def wCEnvScenario : ClientEnv :=
  { baseCEnv with
    getPayment := .ok { clientSecret := "cs_1", paymentReference := "pr_1" }
    confirmStripePayment := fun _ => .ok { id := "pi_1" }
    confirmPaymentIntent := fun _ => .ok () }

/-- Client environment whose Stripe input-submission step reports `wErr`. -/
def wCEnvFail : ClientEnv := { baseCEnv with elementsSubmit := some wErr }

/-- Settlement response carrying an unparsable merchant return url. -/
def wCaptureBadUrl : CaptureResponse :=
  { orderId := "EC-1", status := "COMPLETED", paymentReference := "ct-payment-0",
    ctOrderId := "ct-order-0", merchantReturnUrl := some "::not a url::" }

/-- Client environment where settlement succeeds but the browser `URL`
constructor rejects the configured merchant return url. -/
def wCEnvBadUrl : ClientEnv :=
  { baseCEnv with
    capturePayPalOrder := fun _ => .ok wCaptureBadUrl
    parseURL := fun _ => .error (Err.ofMsg "Invalid URL") }

/-- Composite-widget state with PayPal selected (as `selectPayPal` leaves
a fully mounted DOM). -/
def wSelState : PaymentElementComponent.ElementState :=
  { isPayPalSelected := true,
    dom := { paypalOptionSelected := true, paypalWrapperDisplay := "block",
             stripeOpacity := "0.5", stripePointerEvents := "none" } }

/-- PayPal configuration whose cart total is zero cents. -/
def wCfgZero : PayPalConfig :=
  { clientId := "client-1", environment := "sandbox", currency := "USD", amount := 0 }

/-- Provider order-creation oracle that would succeed if reached. -/
def wCreate : ProviderOrderReq → Except Err String := fun _ => .ok "EC-1"

/-- Weight a flow outcome contributes to the completion count: successful
flows end in exactly one completion callback, failed ones in none. -/
def okCount : Except Err Unit → Nat
  | .ok _ => 1
  | .error _ => 0

/-- Bundle of trace facts shared by the three mode flows: completions
match the outcome, no error callback is emitted inside the flow, no step
repeats, and the trace contains neither the elements-submit step nor the
entry calls of the two other modes, while its own entry call appears at
most once. -/
def FlowStats (tr : List Event) (r : Except Err Unit)
    (nPay nSetup nSub : Nat) : Prop :=
  completions tr = okCount r ∧ errorCbs tr = 0 ∧ tr.Nodup ∧
  countEv .elementsSubmitCall tr = 0 ∧
  countEv .getPaymentCall tr = nPay ∧
  countEv .createSetupIntentCall tr = nSetup ∧
  countEv .createSubscriptionCall tr = nSub

/-- The backend call that starts each mode's specific sequence. -/
def modeEntry : PaymentMode → Event
  | .payment => .getPaymentCall
  | .setup => .createSetupIntentCall
  | .subscription => .createSubscriptionCall

/-- Order draft of the concrete settlement run's order post. -/
def wODraft : OrderDraft :=
  { cartId := "cart-1", shipmentState := "Pending", orderState := "Open",
    version := 5, paymentState := "Paid" }

/-- Order created by the concrete order-client run. -/
def wOrderRec : OrderRec :=
  { id := "ct-order-0", orderNumber := none, cartId := "cart-1",
    orderState := "Open", paymentState := "Paid", shipmentState := "Pending" }

/-- Backend state after the concrete order-client run. -/
def wStAfterOrder : Backend :=
  { carts := [wCart], payments := [], orders := [wOrderRec], tick := 2 }

/-- First concrete settlement run against `wBackend`. -/
def wCap1 : List Event × Backend × Except Err CaptureResponse :=
  PayPalPaymentService.capturePayPalOrder wSEnv wBackend "EC-1"

/-- Backend state after the first concrete settlement run. -/
def wSt1 : Backend := wCap1.2.1

/-- Second concrete settlement run, against the state the first left. -/
def wCap2 : List Event × Backend × Except Err CaptureResponse :=
  PayPalPaymentService.capturePayPalOrder wSEnv wSt1 "EC-1"

/-- Response of the first concrete settlement run. -/
def wRes1 : CaptureResponse :=
  { orderId := "EC-1", status := "COMPLETED", paymentReference := "ct-payment-0",
    ctOrderId := "ct-order-0", orderNumber := none, merchantReturnUrl := some "" }

/-- Response of the second concrete settlement run. -/
def wRes2 : CaptureResponse :=
  { orderId := "EC-1", status := "COMPLETED", paymentReference := "ct-payment-1",
    ctOrderId := "ct-order-1", orderNumber := none, merchantReturnUrl := some "" }

/-- Order draft posted by the first concrete settlement run. -/
def wPostDraft : OrderDraft :=
  { cartId := "cart-1", shipmentState := "Pending", orderState := "Open",
    version := 6, paymentState := "Paid" }

/-- Completion payload of the concrete end-to-end settlement. -/
def wRes : PaymentResult :=
  { isSuccess := true, paymentReference := "ct-payment-0", paymentIntent := "EC-1",
    orderId := some "ct-order-0", orderNumber := none }

/-! Helper lemmas about the backend operations. -/

/-- Every backend operation slot leaves carts, payments and orders of the
state component untouched unless its body changes them; `getCartRawOp`
changes nothing but the tick. -/
theorem getCartRawOp_state (env : ServerEnv) (st : Backend) (oid : Option String) :
    ((getCartRawOp env st oid).1).carts = st.carts ∧
    ((getCartRawOp env st oid).1).payments = st.payments ∧
    ((getCartRawOp env st oid).1).orders = st.orders := by
  unfold getCartRawOp opStep
  cases env.fault st.tick <;> cases oid <;> simp

/-- `getCartOp` changes nothing but the tick. -/
theorem getCartOp_state (env : ServerEnv) (st : Backend) (oid : Option String) :
    ((getCartOp env st oid).1).carts = st.carts ∧
    ((getCartOp env st oid).1).payments = st.payments ∧
    ((getCartOp env st oid).1).orders = st.orders := by
  unfold getCartOp
  have h := getCartRawOp_state env st oid
  rcases hr : getCartRawOp env st oid with ⟨st1, r⟩
  rw [hr] at h
  rcases r with e | oc
  · simpa using h
  · rcases oc with _ | c <;> simpa using h

/-- Characterization of a successful `getCartOp`: the id was present, the
lookup in the unchanged cart list found the cart. -/
theorem getCartOp_ok {env : ServerEnv} {st st1 : Backend} {oid : Option String}
    {c : CartRec} (h : getCartOp env st oid = (st1, .ok c)) :
    st1.carts = st.carts ∧ st1.payments = st.payments ∧ st1.orders = st.orders ∧
    ∃ i, oid = some i ∧ st.findCart i = some c := by
  unfold getCartOp getCartRawOp opStep at h
  cases hf : env.fault st.tick <;> rw [hf] at h
  · cases oid with
    | none => simp at h
    | some i =>
      simp only [] at h
      cases hfc : Backend.findCart { st with tick := st.tick + 1 } i <;> rw [hfc] at h
      · simp at h
      · rename_i c'
        obtain ⟨h1, h2⟩ := Prod.mk.injEq .. ▸ h
        injection h ; rename_i hst hr
        injection hr ; rename_i hc
        subst hst; subst hc
        refine ⟨rfl, rfl, rfl, i, rfl, ?_⟩
        simpa [Backend.findCart] using hfc
  · simp at h

/-- `getCartOp` reduces to the found cart when no fault is injected and the
lookup succeeds. -/
theorem getCartOp_nofault {env : ServerEnv} {st : Backend} {i : String} {c : CartRec}
    (hf : env.fault st.tick = none) (hc : st.findCart i = some c) :
    getCartOp env st (some i) = ({ st with tick := st.tick + 1 }, .ok c) := by
  unfold getCartOp getCartRawOp opStep
  rw [hf]
  simp only []
  have : Backend.findCart { st with tick := st.tick + 1 } i = some c := by
    simpa [Backend.findCart] using hc
  rw [this]

/-- `getPaymentAmountOp` changes nothing but the tick. -/
theorem getPaymentAmountOp_state (env : ServerEnv) (st : Backend) (cart : CartRec) :
    (getPaymentAmountOp env st cart).1 = { st with tick := st.tick + 1 } := by
  unfold getPaymentAmountOp opStep
  cases env.fault st.tick <;> simp

/-- A successful `getPaymentAmountOp` returns the cart's total. -/
theorem getPaymentAmountOp_ok {env : ServerEnv} {st st1 : Backend} {cart : CartRec}
    {amt : Money} (h : getPaymentAmountOp env st cart = (st1, .ok amt)) :
    st1 = { st with tick := st.tick + 1 } ∧ amt = cart.total := by
  unfold getPaymentAmountOp opStep at h
  cases hf : env.fault st.tick <;> rw [hf] at h
  · exact ⟨(Prod.mk.injEq .. ▸ h).1.symm, ((Prod.mk.injEq .. ▸ h).2 |> Except.ok.inj).symm⟩
  · simp at h

/-- `getPaymentAmountOp` under no fault. -/
theorem getPaymentAmountOp_nofault {env : ServerEnv} {st : Backend} {cart : CartRec}
    (hf : env.fault st.tick = none) :
    getPaymentAmountOp env st cart = ({ st with tick := st.tick + 1 }, .ok cart.total) := by
  unfold getPaymentAmountOp opStep
  rw [hf]

/-- A successful `createPaymentOp` appends exactly one fresh record whose
sequence number is the count of previously created payments. -/
theorem createPaymentOp_ok {env : ServerEnv} {st st1 : Backend} {d : PaymentDraft}
    {p : PaymentRec} (h : createPaymentOp env st d = (st1, .ok p)) :
    p = { num := st.payments.length, draft := d } ∧
    st1 = { st with
            tick := st.tick + 1
            payments := st.payments ++ [p] } := by
  unfold createPaymentOp opStep at h
  cases hf : env.fault st.tick <;> rw [hf] at h
  · simp only [] at h
    obtain ⟨h1, h2⟩ := Prod.mk.injEq .. ▸ h
    have hp := (Except.ok.inj h2).symm
    subst hp
    refine ⟨rfl, ?_⟩
    rw [← h1]
  · simp at h

/-- A failed `createPaymentOp` leaves the state unchanged but for the tick. -/
theorem createPaymentOp_err {env : ServerEnv} {st st1 : Backend} {d : PaymentDraft}
    {e : Err} (h : createPaymentOp env st d = (st1, .error e)) :
    st1 = { st with tick := st.tick + 1 } := by
  unfold createPaymentOp opStep at h
  cases hf : env.fault st.tick <;> rw [hf] at h
  · simp at h
  · exact (Prod.mk.injEq .. ▸ h).1.symm

/-- `createPaymentOp` under no fault. -/
theorem createPaymentOp_nofault {env : ServerEnv} {st : Backend} {d : PaymentDraft}
    (hf : env.fault st.tick = none) :
    createPaymentOp env st d =
      ({ st with
         tick := st.tick + 1
         payments := st.payments ++ [{ num := st.payments.length, draft := d }] },
       .ok { num := st.payments.length, draft := d }) := by
  unfold createPaymentOp opStep
  rw [hf]

/-- `addPaymentOp` never touches payments or orders. -/
theorem addPaymentOp_state (env : ServerEnv) (st : Backend) (cid : String)
    (v : Nat) (pid : String) :
    ((addPaymentOp env st cid v pid).1).payments = st.payments ∧
    ((addPaymentOp env st cid v pid).1).orders = st.orders := by
  unfold addPaymentOp opStep
  cases env.fault st.tick
  · simp only []
    cases hfc : Backend.findCart { st with tick := st.tick + 1 } cid
    · simp
    · rename_i c
      by_cases hv : (c.version == v) = true <;> simp [hv]
  · simp

/-- Characterization of a successful `addPaymentOp`: the cart was found at
the requested version; the updated cart has the bumped version and the
payment attached, and the cart list is rewritten pointwise. -/
theorem addPaymentOp_ok {env : ServerEnv} {st st1 : Backend} {cid pid : String}
    {v : Nat} {c' : CartRec} (h : addPaymentOp env st cid v pid = (st1, .ok c')) :
    ∃ c, st.findCart cid = some c ∧ c.version = v ∧
      c' = { c with version := c.version + 1, paymentIds := c.paymentIds ++ [pid] } ∧
      st1 = { st with
              tick := st.tick + 1
              carts := st.carts.map (fun x => if x.id == cid then c' else x) } := by
  unfold addPaymentOp opStep at h
  split at h
  · simp at h
  · simp only [] at h
    split at h
    · simp at h
    · rename_i c hfc
      split at h
      · rename_i hv
        obtain ⟨h1, h2⟩ := Prod.mk.injEq .. ▸ h
        have hc' := (Except.ok.inj h2)
        refine ⟨c, by simpa [Backend.findCart] using hfc, by simpa using hv, hc'.symm, ?_⟩
        rw [← h1, ← hc']
      · simp at h

/-- A failed `addPaymentOp` leaves the cart list unchanged. -/
theorem addPaymentOp_err {env : ServerEnv} {st st1 : Backend} {cid pid : String}
    {v : Nat} {e : Err} (h : addPaymentOp env st cid v pid = (st1, .error e)) :
    st1 = { st with tick := st.tick + 1 } := by
  unfold addPaymentOp opStep at h
  split at h
  · exact (Prod.mk.injEq .. ▸ h).1.symm
  · simp only [] at h
    split at h
    · exact (Prod.mk.injEq .. ▸ h).1.symm
    · split at h
      · simp at h
      · exact (Prod.mk.injEq .. ▸ h).1.symm

/-- `postOrderOp` never touches carts or payments. -/
theorem postOrderOp_state (env : ServerEnv) (st : Backend) (draft : OrderDraft) :
    ((postOrderOp env st draft).1).carts = st.carts ∧
    ((postOrderOp env st draft).1).payments = st.payments := by
  unfold postOrderOp opStep
  cases env.fault st.tick
  · simp only []
    cases hfc : Backend.findCart { st with tick := st.tick + 1 } draft.cartId
    · simp
    · rename_i c
      by_cases hv : (c.version == draft.version) = true <;> simp [hv]
  · simp

/-- A successful `postOrderOp` found the cart at the posted version. -/
theorem postOrderOp_ok {env : ServerEnv} {st st1 : Backend} {draft : OrderDraft}
    {o : OrderRec} (h : postOrderOp env st draft = (st1, .ok o)) :
    ∃ c, st.findCart draft.cartId = some c ∧ c.version = draft.version ∧
      st1 = { st with
              tick := st.tick + 1
              orders := st.orders ++ [o] } := by
  unfold postOrderOp opStep at h
  split at h
  · simp at h
  · simp only [] at h
    split at h
    · simp at h
    · rename_i c hfc
      split at h
      · rename_i hv
        obtain ⟨h1, h2⟩ := Prod.mk.injEq .. ▸ h
        have ho := Except.ok.inj h2
        refine ⟨c, by simpa [Backend.findCart] using hfc, by simpa using hv, ?_⟩
        rw [← h1, ho]
      · simp at h

/-- Pointwise cart-list update commutes with lookup: replacing every cart
with the given id by `c'` (itself carrying that id) turns a successful
lookup into `c'`. -/
theorem findCart_map_update (l : List CartRec) (cid : String) (c' : CartRec)
    (hc' : (c'.id == cid) = true) :
    (l.map (fun x => if x.id == cid then c' else x)).find? (fun x => x.id == cid) =
      (l.find? (fun x => x.id == cid)).map (fun _ => c') := by
  induction l with
  | nil => simp
  | cons a l ih =>
    by_cases ha : (a.id == cid) = true
    · rw [List.map_cons, if_pos ha,
        @List.find?_cons_of_pos _ (fun x => x.id == cid) c' _ hc',
        @List.find?_cons_of_pos _ (fun x => x.id == cid) a _ ha]
      simp
    · rw [List.map_cons, if_neg ha,
        @List.find?_cons_of_neg _ (fun x => x.id == cid) a _ ha,
        @List.find?_cons_of_neg _ (fun x => x.id == cid) a _ ha, ih]

/-! Helper lemmas about the client flows' traces. -/

/-- Trace discipline of the one-shot payment flow. -/
theorem createPayment_stats (env : ClientEnv) :
    FlowStats (PaymentFlows.createPayment env).1 (PaymentFlows.createPayment env).2 1 0 0 := by
  unfold FlowStats PaymentFlows.createPayment
  cases h1 : env.getPayment with
  | error e =>
    simp [h1, completions, errorCbs, countEv, okCount, Event.isComplete, Event.isError]
  | ok pr =>
    cases h2 : env.confirmStripePayment pr with
    | error e =>
      simp [h1, h2, completions, errorCbs, countEv, okCount, Event.isComplete, Event.isError]
    | ok pi =>
      cases h3 : env.confirmPaymentIntent
          { paymentIntentId := pi.id, paymentReference := pr.paymentReference } with
      | error e =>
        simp [h1, h2, h3, completions, errorCbs, countEv, okCount,
          Event.isComplete, Event.isError]
      | ok u =>
        simp [h1, h2, h3, completions, errorCbs, countEv, okCount,
          Event.isComplete, Event.isError]

/-- Trace discipline of the stored-method setup flow. -/
theorem createSetupIntent_stats (env : ClientEnv) :
    FlowStats (PaymentFlows.createSetupIntent env).1
      (PaymentFlows.createSetupIntent env).2 0 1 0 := by
  unfold FlowStats PaymentFlows.createSetupIntent
  cases h1 : env.createSetupIntent with
  | error e =>
    simp [h1, completions, errorCbs, countEv, okCount, Event.isComplete, Event.isError]
  | ok setupRes =>
    cases h2 : env.confirmStripeSetupIntent setupRes with
    | error e =>
      simp [h1, h2, completions, errorCbs, countEv, okCount, Event.isComplete, Event.isError]
    | ok intent =>
      cases h3 : env.createSubscriptionFromSetupIntent intent.id with
      | error e =>
        simp [h1, h2, h3, completions, errorCbs, countEv, okCount,
          Event.isComplete, Event.isError]
      | ok subscription =>
        cases h4 : env.confirmSubscriptionPayment
            { subscriptionId := subscription.subscriptionId,
              paymentReference := subscription.paymentReference } with
        | error e =>
          simp [h1, h2, h3, h4, completions, errorCbs, countEv, okCount,
            Event.isComplete, Event.isError]
        | ok u =>
          simp [h1, h2, h3, h4, completions, errorCbs, countEv, okCount,
            Event.isComplete, Event.isError]

/-- Trace discipline of the subscription flow. -/
theorem createSubscription_stats (env : ClientEnv) :
    FlowStats (PaymentFlows.createSubscription env).1
      (PaymentFlows.createSubscription env).2 0 0 1 := by
  unfold FlowStats PaymentFlows.createSubscription
  cases h1 : env.createSubscription with
  | error e =>
    simp [h1, completions, errorCbs, countEv, okCount, Event.isComplete, Event.isError]
  | ok sub =>
    cases h2 : env.confirmStripePayment
        { cartId := some sub.cartId, clientSecret := sub.clientSecret,
          billingAddress := sub.billingAddress,
          merchantReturnUrl := sub.merchantReturnUrl,
          paymentReference := sub.paymentReference } with
    | error e =>
      simp [h1, h2, completions, errorCbs, countEv, okCount, Event.isComplete, Event.isError]
    | ok intent =>
      cases h3 : env.confirmSubscriptionPayment
          { subscriptionId := sub.subscriptionId,
            paymentReference := sub.paymentReference,
            paymentIntentId := some intent.id } with
      | error e =>
        simp [h1, h2, h3, completions, errorCbs, countEv, okCount,
          Event.isComplete, Event.isError]
      | ok u =>
        simp [h1, h2, h3, completions, errorCbs, countEv, okCount,
          Event.isComplete, Event.isError]

/-- An event counted zero times in a trace is not in it. -/
theorem not_mem_of_countEv_zero {x : Event} {tr : List Event}
    (h : countEv x tr = 0) : x ∉ tr := by
  intro hm
  unfold countEv at h
  rw [List.countP_eq_zero] at h
  have := h x hm
  simp at this

/-- A trace with no error-callback invocations contains no `onErrorCb`. -/
theorem onErrorCb_not_mem {tr : List Event} {e : Err}
    (h : errorCbs tr = 0) : Event.onErrorCb e ∉ tr := by
  intro hm
  unfold errorCbs at h
  rw [List.countP_eq_zero] at h
  have := h _ hm
  simp [Event.isError] at this

/-- Trace discipline of the try-block body of `submit()`: callbacks follow
the outcome, no step repeats, no other mode's sequence is entered, and the
dispatched mode's entry call happens at most once. -/
theorem submitCore_stats (env : ClientEnv) (mode : PaymentMode) :
    completions (PaymentFlows.submitCore env mode).1 =
      okCount (PaymentFlows.submitCore env mode).2 ∧
    errorCbs (PaymentFlows.submitCore env mode).1 = 0 ∧
    (PaymentFlows.submitCore env mode).1.Nodup ∧
    (∀ m', m' ≠ mode → countEv (modeEntry m') (PaymentFlows.submitCore env mode).1 = 0) ∧
    countEv (modeEntry mode) (PaymentFlows.submitCore env mode).1 ≤ 1 := by
  unfold PaymentFlows.submitCore
  cases hs : env.elementsSubmit with
  | some e =>
    refine ⟨by simp [completions, okCount, Event.isComplete],
      by simp [errorCbs, Event.isError], by simp, ?_, ?_⟩
    · intro m' _
      cases m' <;> simp [countEv, modeEntry]
    · cases mode <;> simp [countEv, modeEntry]
  | none =>
    cases mode
    case payment =>
      obtain ⟨hc, he, hn, hel, hp, hsetup, hsub⟩ := createPayment_stats env
      rcases hcp : PaymentFlows.createPayment env with ⟨tr, r⟩
      rw [hcp] at hc he hn hel hp hsetup hsub
      simp only [hcp]
      refine ⟨by simpa [completions, Event.isComplete] using hc,
        by simpa [errorCbs, Event.isError] using he,
        List.nodup_cons.mpr ⟨not_mem_of_countEv_zero hel, hn⟩, ?_, ?_⟩
      · intro m' hm'
        cases m' with
        | payment => exact absurd rfl hm'
        | setup => simpa [countEv, modeEntry] using hsetup
        | subscription => simpa [countEv, modeEntry] using hsub
      · simpa [countEv, modeEntry] using le_of_eq hp
    case setup =>
      obtain ⟨hc, he, hn, hel, hp, hsetup, hsub⟩ := createSetupIntent_stats env
      rcases hcp : PaymentFlows.createSetupIntent env with ⟨tr, r⟩
      rw [hcp] at hc he hn hel hp hsetup hsub
      simp only [hcp]
      refine ⟨by simpa [completions, Event.isComplete] using hc,
        by simpa [errorCbs, Event.isError] using he,
        List.nodup_cons.mpr ⟨not_mem_of_countEv_zero hel, hn⟩, ?_, ?_⟩
      · intro m' hm'
        cases m' with
        | setup => exact absurd rfl hm'
        | payment => simpa [countEv, modeEntry] using hp
        | subscription => simpa [countEv, modeEntry] using hsub
      · simpa [countEv, modeEntry] using le_of_eq hsetup
    case subscription =>
      obtain ⟨hc, he, hn, hel, hp, hsetup, hsub⟩ := createSubscription_stats env
      rcases hcp : PaymentFlows.createSubscription env with ⟨tr, r⟩
      rw [hcp] at hc he hn hel hp hsetup hsub
      simp only [hcp]
      refine ⟨by simpa [completions, Event.isComplete] using hc,
        by simpa [errorCbs, Event.isError] using he,
        List.nodup_cons.mpr ⟨not_mem_of_countEv_zero hel, hn⟩, ?_, ?_⟩
      · intro m' hm'
        cases m' with
        | subscription => exact absurd rfl hm'
        | payment => simpa [countEv, modeEntry] using hp
        | setup => simpa [countEv, modeEntry] using hsetup
      · simpa [countEv, modeEntry] using le_of_eq hsub

/-- Trace discipline of `submit()` itself: exactly one of the callbacks
fires, no step repeats, and only the dispatched mode's sequence starts. -/
theorem submit_stats (env : ClientEnv) (mode : PaymentMode) :
    completions (PaymentFlows.submit env mode) +
      errorCbs (PaymentFlows.submit env mode) = 1 ∧
    (PaymentFlows.submit env mode).Nodup ∧
    (∀ m', m' ≠ mode → countEv (modeEntry m') (PaymentFlows.submit env mode) = 0) ∧
    countEv (modeEntry mode) (PaymentFlows.submit env mode) ≤ 1 := by
  obtain ⟨hc, he, hn, hother, hown⟩ := submitCore_stats env mode
  rcases hsc : PaymentFlows.submitCore env mode with ⟨tr, r⟩
  rw [hsc] at hc he hn hother hown
  simp only [] at hc he hn hother hown
  cases r with
  | ok u =>
    have hs : PaymentFlows.submit env mode = tr := by
      unfold PaymentFlows.submit
      rw [hsc]
    rw [hs]
    simp only [okCount] at hc
    exact ⟨by omega, hn, hother, hown⟩
  | error e =>
    have hs : PaymentFlows.submit env mode = tr ++ [.onErrorCb e] := by
      unfold PaymentFlows.submit
      rw [hsc]
    rw [hs]
    simp only [okCount] at hc
    refine ⟨?_, ?_, ?_, ?_⟩
    · simp only [completions, errorCbs] at hc he ⊢
      rw [List.countP_append, List.countP_append]
      have hc1 : List.countP (fun x => x.isComplete) [Event.onErrorCb e] = 0 := rfl
      have he1 : List.countP (fun x => x.isError) [Event.onErrorCb e] = 1 := rfl
      omega
    · rw [List.nodup_append]
      refine ⟨hn, List.nodup_singleton _, ?_⟩
      intro x hx hx'
      simp at hx'
      subst hx'
      exact onErrorCb_not_mem he hx
    · intro m' hm'
      have h0 := hother m' hm'
      unfold countEv at h0 ⊢
      rw [List.countP_append]
      have hz : List.countP (fun e' => decide (e' = modeEntry m')) [Event.onErrorCb e] = 0 := by
        cases m' <;> simp [modeEntry]
      omega
    · unfold countEv at hown ⊢
      rw [List.countP_append]
      have hz : List.countP (fun e' => decide (e' = modeEntry mode)) [Event.onErrorCb e] = 0 := by
        cases mode <;> simp [modeEntry]
      omega

/-- Callback discipline of the continuation of the PayPal settlement
path: at least one callback fires, each of the two at most once. -/
theorem createPayPalPaymentCont_stats (env : ClientEnv) (oid : String)
    (res : Except Err CaptureResponse) :
    1 ≤ completions (PaymentFlows.createPayPalPaymentCont env oid res) +
        errorCbs (PaymentFlows.createPayPalPaymentCont env oid res) ∧
    completions (PaymentFlows.createPayPalPaymentCont env oid res) ≤ 1 ∧
    errorCbs (PaymentFlows.createPayPalPaymentCont env oid res) ≤ 1 := by
  unfold PaymentFlows.createPayPalPaymentCont
  cases res with
  | error e => simp [completions, errorCbs, Event.isComplete, Event.isError]
  | ok result =>
    by_cases ht : truthy result.merchantReturnUrl = true
    · cases hu : env.parseURL (jsOr result.merchantReturnUrl "") with
      | error e => simp [ht, hu, completions, errorCbs, Event.isComplete, Event.isError]
      | ok u0 => simp [ht, hu, completions, errorCbs, Event.isComplete, Event.isError]
    · simp [ht, completions, errorCbs, Event.isComplete, Event.isError]

/-- Callback discipline of the client-side PayPal settlement path: at
least one callback fires, and each of the two fires at most once. -/
theorem createPayPalPayment_stats (env : ClientEnv) (oid : String) :
    1 ≤ completions (PaymentFlows.createPayPalPayment env oid) +
        errorCbs (PaymentFlows.createPayPalPayment env oid) ∧
    completions (PaymentFlows.createPayPalPayment env oid) ≤ 1 ∧
    errorCbs (PaymentFlows.createPayPalPayment env oid) ≤ 1 := by
  obtain ⟨h1, h2, h3⟩ := createPayPalPaymentCont_stats env oid (env.capturePayPalOrder oid)
  unfold PaymentFlows.createPayPalPayment
  simp only [completions, errorCbs] at h1 h2 h3 ⊢
  rw [List.countP_cons, List.countP_cons]
  have e1 : (Event.captureApiCall oid).isComplete = false := rfl
  have e2 : (Event.captureApiCall oid).isError = false := rfl
  simp only [e1, e2, if_false, Bool.false_eq_true]
  omega

/-! Helper lemmas about the order client and the settlement service. -/

/-- Whatever happens, `createOrderFromCart`'s trace is the re-fetch alone
(when it failed) or the re-fetch followed by the one order post. -/
theorem createOrderFromCart_events (env : ServerEnv) (st : Backend) (cart : CartRec) :
    (createOrderFromCart env st cart).1 = [.orderGetCartCall cart.id] ∨
    ∃ d, (createOrderFromCart env st cart).1 =
      [.orderGetCartCall cart.id, .postOrderCall d] := by
  unfold createOrderFromCart
  rcases hg : getCartOp env st (some cart.id) with ⟨st1, rg⟩
  cases rg with
  | error e => simp
  | ok latest =>
    rcases hp : postOrderOp env st1
        { cartId := cart.id, shipmentState := "Pending", orderState := "Open",
          version := latest.version, paymentState := "Paid" } with ⟨st2, rp⟩
    cases rp with
    | error e => simp [hp]
    | ok order => simp [hp]

/-- Any order post made by `createOrderFromCart` carries the version of
the cart as re-fetched immediately before the post — never the version of
the cart value passed in by the caller. -/
theorem createOrderFromCart_version {env : ServerEnv} {st st' : Backend}
    {cart : CartRec} {tr : List Event} {r : Except Err OrderRec} {draft : OrderDraft}
    (h : createOrderFromCart env st cart = (tr, st', r))
    (hmem : Event.postOrderCall draft ∈ tr) :
    ∃ latest, st.findCart cart.id = some latest ∧ draft.version = latest.version ∧
      draft.cartId = cart.id ∧
      tr = [.orderGetCartCall cart.id, .postOrderCall draft] := by
  unfold createOrderFromCart at h
  split at h
  · rename_i st1 e heq
    obtain ⟨ht, _⟩ := Prod.mk.injEq .. ▸ h
    rw [← ht] at hmem
    simp at hmem
  · rename_i st1 latest heq
    obtain ⟨_, _, _, hfind⟩ := getCartOp_ok heq
    obtain ⟨i, hi, hf⟩ := hfind
    have hieq : i = cart.id := by injection hi.symm
    subst hieq
    simp only [] at h
    split at h
    · rename_i st2 e heq2
      obtain ⟨ht, _⟩ := Prod.mk.injEq .. ▸ h
      rw [← ht] at hmem
      simp at hmem
      subst hmem
      exact ⟨latest, hf, rfl, rfl, ht.symm⟩
    · rename_i st2 order heq2
      obtain ⟨ht, _⟩ := Prod.mk.injEq .. ▸ h
      rw [← ht] at hmem
      simp at hmem
      subst hmem
      exact ⟨latest, hf, rfl, rfl, ht.symm⟩

/-- Characterization of a successful `createOrderFromCart`: the cart was
re-fetched, the post carried the re-fetched version, and the backend state
kept its carts and payments. -/
theorem createOrderFromCart_ok {env : ServerEnv} {st st' : Backend}
    {cart : CartRec} {tr : List Event} {order : OrderRec}
    (h : createOrderFromCart env st cart = (tr, st', .ok order)) :
    ∃ latest, st.findCart cart.id = some latest ∧
      tr = [.orderGetCartCall cart.id,
            .postOrderCall { cartId := cart.id, shipmentState := "Pending",
                             orderState := "Open", version := latest.version,
                             paymentState := "Paid" }] ∧
      st'.payments = st.payments ∧ st'.carts = st.carts := by
  unfold createOrderFromCart at h
  split at h
  · simp at h
  · rename_i st1 latest heq
    obtain ⟨hcarts1, hpay1, _, hfind⟩ := getCartOp_ok heq
    obtain ⟨i, hi, hf⟩ := hfind
    have hieq : i = cart.id := by injection hi.symm
    subst hieq
    simp only [] at h
    split at h
    · simp at h
    · rename_i st2 order' heq2
      obtain ⟨ht, h2⟩ := Prod.mk.injEq .. ▸ h
      obtain ⟨hst, hr⟩ := Prod.mk.injEq .. ▸ h2
      have horder : order' = order := by
        exact Except.ok.inj hr
      subst horder
      obtain ⟨c2, _, _, hst2⟩ := postOrderOp_ok heq2
      refine ⟨latest, hf, ht.symm, ?_, ?_⟩
      · rw [← hst, hst2]
        simpa using hpay1
      · rw [← hst, hst2]
        simpa using hcarts1

/-- After the payment-attach step rewrote the cart list, looking the cart
up again (by the updated cart's id) yields exactly the updated cart. -/
theorem findCart_after_add {st3 st4 : Backend} {cartId : String}
    {c0 updatedCart : CartRec}
    (hfc0 : st3.findCart cartId = some c0)
    (hupd : updatedCart.id = c0.id)
    (hst4carts : st4.carts =
      st3.carts.map (fun x => if x.id == cartId then updatedCart else x)) :
    st4.findCart updatedCart.id = some updatedCart := by
  have hbeq : (c0.id == cartId) = true := by
    have := List.find?_some hfc0
    simpa using this
  have hueq : (updatedCart.id == cartId) = true := by rw [hupd]; exact hbeq
  have hid : updatedCart.id = cartId := eq_of_beq hueq
  unfold Backend.findCart
  rw [hst4carts, hid, findCart_map_update st3.carts cartId updatedCart hueq]
  unfold Backend.findCart at hfc0
  rw [hfc0]
  rfl

/-- Characterization of a successful settlement tail: the payment record
is appended with a fresh sequence number, the cart is re-written with the
payment attached and a bumped version, the order draft carries the bumped
version, the response references the new payment, and the trace is exactly
the amount-create-attach-refetch-post sequence. -/
theorem captureTail_ok {env : ServerEnv} {st1 st' : Backend} {oid : String}
    {cart : CartRec} {tr : List Event} {res : CaptureResponse}
    (h : captureTail env st1 oid cart = (tr, st', .ok res)) :
    ∃ (p : PaymentRec) (c0 updatedCart : CartRec) (odraft : OrderDraft),
      p.num = st1.payments.length ∧
      p.draft = mkPayPalPaymentDraft env cart.total oid cart ∧
      st1.findCart cart.id = some c0 ∧
      c0.version = cart.version ∧
      updatedCart = { c0 with
                      version := c0.version + 1
                      paymentIds := c0.paymentIds ++ [paymentIdStr p] } ∧
      st'.payments = st1.payments ++ [p] ∧
      st'.findCart updatedCart.id = some updatedCart ∧
      odraft.version = c0.version + 1 ∧
      res.paymentReference = paymentIdStr p ∧
      tr = [.getPaymentAmountCall cart.id, .createPaymentCall p.draft,
            .addPaymentCall cart.id cart.version (paymentIdStr p),
            .orderGetCartCall updatedCart.id, .postOrderCall odraft] := by
  unfold captureTail at h
  split at h
  · simp at h
  · rename_i st2 amt heq1
    simp only [] at h
    split at h
    · simp at h
    · rename_i st3 ctPayment heq2
      split at h
      · simp at h
      · rename_i st4 updatedCart heq3
        split at h
        · simp at h
        · rename_i tr5 st5 order heq4
          obtain ⟨hst2, hamt⟩ := getPaymentAmountOp_ok heq1
          obtain ⟨hp, hst3⟩ := createPaymentOp_ok heq2
          obtain ⟨c0, hfc0, hv0, hupd, hst4⟩ := addPaymentOp_ok heq3
          obtain ⟨latest, hlat, htr5, hpay5, hcarts5⟩ := createOrderFromCart_ok heq4
          subst hamt
          have hupdid : updatedCart.id = c0.id := by rw [hupd]
          have hcarts4 : st4.carts = st3.carts.map
              (fun x => if x.id == cart.id then updatedCart else x) := by rw [hst4]
          have hlat2 : st4.findCart updatedCart.id = some updatedCart :=
            findCart_after_add hfc0 hupdid hcarts4
          have hlatest : updatedCart = latest :=
            (Option.some.inj (hlat.symm.trans hlat2)).symm
          subst hlatest
          obtain ⟨htr, hrest⟩ := Prod.mk.injEq .. ▸ h
          obtain ⟨hst', hres⟩ := Prod.mk.injEq .. ▸ hrest
          have hres2 := Except.ok.inj hres
          refine ⟨ctPayment, c0, updatedCart,
            { cartId := updatedCart.id, shipmentState := "Pending",
              orderState := "Open", version := updatedCart.version,
              paymentState := "Paid" },
            ?_, ?_, ?_, hv0, hupd, ?_, ?_, ?_, ?_, ?_⟩
          · rw [hp, hst2]
          · rw [hp]
          · rw [hst3, hst2] at hfc0
            simpa [Backend.findCart] using hfc0
          · rw [← hst', hpay5, hst4, hst3, hst2]
          · have hfc5 : st5.findCart updatedCart.id = st4.findCart updatedCart.id := by
              unfold Backend.findCart
              rw [hcarts5]
            rw [← hst', hfc5]
            exact hlat2
          · rw [hupd]
          · rw [← hres2]
          · rw [← htr, htr5]
            simp [hp]

/-- The settlement tail never invokes a checkout callback: its trace holds
backend calls only. -/
theorem captureTail_no_complete (env : ServerEnv) (st1 : Backend) (oid : String)
    (cart : CartRec) (x : PaymentResult) :
    Event.onCompleteCb x ∉ (captureTail env st1 oid cart).1 := by
  unfold captureTail
  rcases h1 : getPaymentAmountOp env st1 cart with ⟨st2, r1⟩
  cases r1 with
  | error e => simp
  | ok amt =>
    rcases h2 : createPaymentOp env st2 (mkPayPalPaymentDraft env amt oid cart) with ⟨st3, r2⟩
    cases r2 with
    | error e => simp [h2]
    | ok ctPayment =>
      rcases h3 : addPaymentOp env st3 cart.id cart.version (paymentIdStr ctPayment)
        with ⟨st4, r3⟩
      cases r3 with
      | error e => simp [h2, h3]
      | ok updatedCart =>
        rcases h4 : createOrderFromCart env st4 updatedCart with ⟨tr5, st5, r4⟩
        have hev := createOrderFromCart_events env st4 updatedCart
        rw [h4] at hev
        simp only [] at hev
        cases r4 with
        | error e =>
          rcases hev with hev | ⟨d, hev⟩ <;> simp [h2, h3, h4, hev]
        | ok order =>
          rcases hev with hev | ⟨d, hev⟩ <;> simp [h2, h3, h4, hev]

/-- Any order post inside the settlement tail carries exactly the
version the payment-attach step just wrote: the attach succeeded at the
version named in the attach event, and the posted draft names its
successor. -/
theorem captureTail_post_version {env : ServerEnv} {st1 st' : Backend}
    {oid : String} {cart : CartRec} {tr : List Event}
    {r : Except Err CaptureResponse} {draft : OrderDraft} {cid2 : String}
    {v : Nat} {pid : String}
    (h : captureTail env st1 oid cart = (tr, st', r))
    (hpost : Event.postOrderCall draft ∈ tr)
    (hadd : Event.addPaymentCall cid2 v pid ∈ tr) :
    draft.version = v + 1 := by
  unfold captureTail at h
  split at h
  · obtain ⟨ht, _⟩ := Prod.mk.injEq .. ▸ h
    rw [← ht] at hpost
    simp at hpost
  · rename_i st2 amt heq1
    simp only [] at h
    split at h
    · obtain ⟨ht, _⟩ := Prod.mk.injEq .. ▸ h
      rw [← ht] at hpost
      simp at hpost
    · rename_i st3 ctPayment heq2
      split at h
      · obtain ⟨ht, _⟩ := Prod.mk.injEq .. ▸ h
        rw [← ht] at hpost
        simp at hpost
      · rename_i st4 updatedCart heq3
        obtain ⟨c0, hfc0, hv0, hupd, hst4⟩ := addPaymentOp_ok heq3
        have hupdid : updatedCart.id = c0.id := by rw [hupd]
        have hcarts4 : st4.carts = st3.carts.map
            (fun x => if x.id == cart.id then updatedCart else x) := by rw [hst4]
        have hlat2 : st4.findCart updatedCart.id = some updatedCart :=
          findCart_after_add hfc0 hupdid hcarts4
        have hev := createOrderFromCart_events env st4 updatedCart
        split at h
        · rename_i tr5 st5 e heq4
          rw [heq4] at hev
          simp only [] at hev
          obtain ⟨ht, _⟩ := Prod.mk.injEq .. ▸ h
          rw [← ht] at hpost hadd
          simp at hpost hadd
          rcases hev with hev | ⟨d, hev⟩
          · rw [hev] at hpost
            simp at hpost
          · rw [hev] at hpost hadd
            simp at hpost hadd
            obtain ⟨hc2, hv2, hp2⟩ := hadd
            subst hpost
            have hmem5 : Event.postOrderCall draft ∈ tr5 := by
              rw [hev]
              simp
            obtain ⟨latest, hfl, hdv, _, _⟩ :=
              createOrderFromCart_version heq4 hmem5
            have hlatest : latest = updatedCart :=
              Option.some.inj (hfl.symm.trans hlat2)
            subst hlatest
            rw [hdv, hupd, hv0, hv2]
        · rename_i tr5 st5 order heq4
          rw [heq4] at hev
          simp only [] at hev
          obtain ⟨ht, _⟩ := Prod.mk.injEq .. ▸ h
          rw [← ht] at hpost hadd
          simp at hpost hadd
          rcases hev with hev | ⟨d, hev⟩
          · rw [hev] at hpost
            simp at hpost
          · rw [hev] at hpost hadd
            simp at hpost hadd
            obtain ⟨hc2, hv2, hp2⟩ := hadd
            subst hpost
            have hmem5 : Event.postOrderCall draft ∈ tr5 := by
              rw [hev]
              simp
            obtain ⟨latest, hfl, hdv, _, _⟩ :=
              createOrderFromCart_version heq4 hmem5
            have hlatest : latest = updatedCart :=
              Option.some.inj (hfl.symm.trans hlat2)
            subst hlatest
            rw [hdv, hupd, hv0, hv2]

/-- The settlement service never invokes a checkout callback: its whole
trace is backend calls. -/
theorem capture_no_complete (env : ServerEnv) (st : Backend) (oid : String)
    (x : PaymentResult) :
    Event.onCompleteCb x ∉ (PayPalPaymentService.capturePayPalOrder env st oid).1 := by
  unfold PayPalPaymentService.capturePayPalOrder
  rcases hg : getCartOp env st env.cartIdFromContext with ⟨st1, rg⟩
  cases rg with
  | error e => simp
  | ok cart =>
    rcases ht : captureTail env st1 oid cart with ⟨tr2, st2, r2⟩
    have hnc := captureTail_no_complete env st1 oid cart x
    rw [ht] at hnc
    simp only [] at hnc
    simp [ht, hnc]

/-- Characterization of a successful `capturePayPalOrder`: the cart
resolved from context is fetched, a fresh payment record carrying the
PayPal order id is appended, the cart is re-written with the payment
attached and a bumped version, the posted order draft uses the bumped
version, and the trace is exactly the six-call settlement sequence. -/
theorem capture_ok {env : ServerEnv} {st st' : Backend} {oid : String}
    {tr : List Event} {res : CaptureResponse}
    (h : PayPalPaymentService.capturePayPalOrder env st oid = (tr, st', .ok res)) :
    ∃ (cid : String) (cart updatedCart : CartRec) (p : PaymentRec) (odraft : OrderDraft),
      env.cartIdFromContext = some cid ∧
      st.findCart cid = some cart ∧
      p.num = st.payments.length ∧
      p.interfaceId = oid ∧
      st'.payments = st.payments ++ [p] ∧
      st'.findCart cid = some updatedCart ∧
      updatedCart.version = cart.version + 1 ∧
      odraft.version = cart.version + 1 ∧
      res.paymentReference = paymentIdStr p ∧
      tr = [.getCartCall (some cid), .getPaymentAmountCall cart.id,
            .createPaymentCall p.draft,
            .addPaymentCall cart.id cart.version (paymentIdStr p),
            .orderGetCartCall updatedCart.id, .postOrderCall odraft] := by
  unfold PayPalPaymentService.capturePayPalOrder at h
  split at h
  · simp at h
  · rename_i st1 cart heq
    rcases ht : captureTail env st1 oid cart with ⟨tr2, st2, r2⟩
    rw [ht] at h
    simp only [] at h
    obtain ⟨htr, hrest⟩ := Prod.mk.injEq .. ▸ h
    obtain ⟨hst', hr2⟩ := Prod.mk.injEq .. ▸ hrest
    subst hr2
    rw [hst'] at ht
    obtain ⟨hcarts1, hpay1, _, i, hi, hf⟩ := getCartOp_ok heq
    obtain ⟨p, c0, updatedCart, odraft, hnum, hdraft, hfc0, hv0, hupd,
      hpay, hfup, hov, href, htail⟩ := captureTail_ok ht
    have hcartid : cart.id = i := by
      have hbeq : (cart.id == i) = true := by
        have := List.find?_some hf
        simpa using this
      exact eq_of_beq hbeq
    have hfc0st : st.findCart cart.id = some c0 := by
      unfold Backend.findCart at hfc0 ⊢
      rw [← hcarts1]
      exact hfc0
    have hc0cart : c0 = cart := by
      rw [hcartid] at hfc0st
      exact Option.some.inj (hf.symm.trans hfc0st).symm
    subst hc0cart
    have hupid : updatedCart.id = i := by
      rw [hupd]
      exact hcartid
    refine ⟨i, c0, updatedCart, p, odraft, hi, hf, ?_, ?_, ?_, ?_, ?_, ?_, href, ?_⟩
    · rw [hnum, hpay1]
    · show p.draft.interfaceId = oid
      rw [hdraft]
      rfl
    · rw [hpay, hpay1]
    · rw [← hupid]
      exact hfup
    · rw [hupd]
    · exact hov
    · rw [← htr, htail, hi]

/-- Any order post of the settlement flow names the successor of the
version at which the payment was attached. -/
theorem capture_post_version {env : ServerEnv} {st st' : Backend} {oid : String}
    {tr : List Event} {r : Except Err CaptureResponse} {draft : OrderDraft}
    {cid2 : String} {v : Nat} {pid : String}
    (h : PayPalPaymentService.capturePayPalOrder env st oid = (tr, st', r))
    (hpost : Event.postOrderCall draft ∈ tr)
    (hadd : Event.addPaymentCall cid2 v pid ∈ tr) :
    draft.version = v + 1 := by
  unfold PayPalPaymentService.capturePayPalOrder at h
  split at h
  · obtain ⟨htr, _⟩ := Prod.mk.injEq .. ▸ h
    rw [← htr] at hpost
    simp at hpost
  · rename_i st1 cart heq
    rcases ht : captureTail env st1 oid cart with ⟨tr2, st2, r2⟩
    rw [ht] at h
    simp only [] at h
    obtain ⟨htr, _⟩ := Prod.mk.injEq .. ▸ h
    rw [← htr] at hpost hadd
    simp at hpost hadd
    exact captureTail_post_version ht hpost hadd

/-- On a successful settlement response, the client continuation always
begins with the completion callback carrying the settlement result, and no
further completion callback follows. -/
theorem cont_ok_shape (cenv : ClientEnv) (oid : String) (result : CaptureResponse) :
    ∃ rest, PaymentFlows.createPayPalPaymentCont cenv oid (.ok result) =
      Event.onCompleteCb { isSuccess := true,
                           paymentReference := result.paymentReference,
                           paymentIntent := oid, orderId := some result.ctOrderId,
                           orderNumber := result.orderNumber } :: rest ∧
      ∀ x, Event.onCompleteCb x ∉ rest := by
  unfold PaymentFlows.createPayPalPaymentCont
  by_cases ht : truthy result.merchantReturnUrl = true
  · cases hu : cenv.parseURL (jsOr result.merchantReturnUrl "") with
    | error e => exact ⟨[.onErrorCb e], by simp [ht, hu], by simp⟩
    | ok u0 =>
      exact ⟨[Event.redirectEv
        (((((u0.addParam "paymentReference" result.paymentReference).addParam
              "orderId" result.ctOrderId).addParam
              "orderNumber" (jsOr result.orderNumber "")).addParam
              "paymentMethod" "paypal").addParam "status" "completed").render],
        by simp [ht, hu], by simp⟩
  · exact ⟨[], by simp [ht], by simp⟩

/-- C3: in payment mode, when the backend returns the payment reference
`pr_1` with client secret `cs_1` and the Stripe SDK confirms returning
`pi_1`, `submit()` calls the backend confirm endpoint with exactly
`paymentIntentId = pi_1` and `paymentReference = pr_1`, and then invokes
the completion callback with exactly `isSuccess = true`,
`paymentReference = pr_1`, `paymentIntent = pi_1`. -/
theorem C3_payment_mode_scenario (env : ClientEnv)
    (h0 : env.elementsSubmit = none)
    (h1 : env.getPayment = .ok { clientSecret := "cs_1", paymentReference := "pr_1" })
    (h2 : env.confirmStripePayment { clientSecret := "cs_1", paymentReference := "pr_1" } =
      .ok { id := "pi_1" })
    (h3 : env.confirmPaymentIntent
      { paymentIntentId := "pi_1", paymentReference := "pr_1" } = .ok ()) :
    PaymentFlows.submit env .payment =
      [.elementsSubmitCall, .getPaymentCall,
       .confirmStripePaymentCall { clientSecret := "cs_1", paymentReference := "pr_1" },
       .confirmPaymentIntentCall { paymentIntentId := "pi_1", paymentReference := "pr_1" },
       .onCompleteCb { isSuccess := true, paymentReference := "pr_1",
                       paymentIntent := "pi_1" }] := by
  unfold PaymentFlows.submit PaymentFlows.submitCore PaymentFlows.createPayment
  simp [h0, h1, h2, h3]

/-- Witness for C3 at a concrete client environment. -/
theorem C3_witness :
    (wCEnvScenario.elementsSubmit = none ∧
     wCEnvScenario.getPayment = .ok { clientSecret := "cs_1", paymentReference := "pr_1" } ∧
     wCEnvScenario.confirmStripePayment
       { clientSecret := "cs_1", paymentReference := "pr_1" } = .ok { id := "pi_1" } ∧
     wCEnvScenario.confirmPaymentIntent
       { paymentIntentId := "pi_1", paymentReference := "pr_1" } = .ok ()) ∧
    PaymentFlows.submit wCEnvScenario .payment =
      [.elementsSubmitCall, .getPaymentCall,
       .confirmStripePaymentCall { clientSecret := "cs_1", paymentReference := "pr_1" },
       .confirmPaymentIntentCall { paymentIntentId := "pi_1", paymentReference := "pr_1" },
       .onCompleteCb { isSuccess := true, paymentReference := "pr_1",
                       paymentIntent := "pi_1" }] :=
  ⟨⟨rfl, rfl, rfl, rfl⟩, C3_payment_mode_scenario wCEnvScenario rfl rfl rfl rfl⟩

/-- C2, counterexample: on the alternative-wallet settlement path, a
single submission can invoke BOTH callbacks.  When the settlement endpoint
succeeds but the returned merchant return url is unparsable, the
completion callback has already fired when the redirect's `new URL(...)`
throws inside the same try block, so the error callback fires as well —
refuting the claim that never both callbacks are invoked. -/
theorem C2_counterexample_both_callbacks :
    completions (PaymentFlows.createPayPalPayment wCEnvBadUrl "EC-1") = 1 ∧
    errorCbs (PaymentFlows.createPayPalPayment wCEnvBadUrl "EC-1") = 1 := by decide

/-- C2, amended: for every mode, one `submit()` invocation fires exactly
one of the two callbacks and starts only the dispatched mode's backend
sequence, at most once; on the alternative-wallet settlement path at least
one callback fires and each fires at most once (both fire exactly when the
post-completion redirect url construction fails). -/
theorem C2_amended_callback_discipline :
    (∀ env mode,
       completions (PaymentFlows.submit env mode) +
         errorCbs (PaymentFlows.submit env mode) = 1) ∧
    (∀ env mode m', m' ≠ mode →
       countEv (modeEntry m') (PaymentFlows.submit env mode) = 0) ∧
    (∀ env mode, countEv (modeEntry mode) (PaymentFlows.submit env mode) ≤ 1) ∧
    (∀ env oid,
       1 ≤ completions (PaymentFlows.createPayPalPayment env oid) +
           errorCbs (PaymentFlows.createPayPalPayment env oid) ∧
       completions (PaymentFlows.createPayPalPayment env oid) ≤ 1 ∧
       errorCbs (PaymentFlows.createPayPalPayment env oid) ≤ 1) :=
  ⟨fun env mode => (submit_stats env mode).1,
   fun env mode m' h => (submit_stats env mode).2.2.1 m' h,
   fun env mode => (submit_stats env mode).2.2.2,
   fun env oid => createPayPalPayment_stats env oid⟩

/-- Witness for the amended C2 at a concrete environment and mode pair. -/
theorem C2_amended_witness :
    (completions (PaymentFlows.submit baseCEnv .payment) +
       errorCbs (PaymentFlows.submit baseCEnv .payment) = 1) ∧
    (PaymentMode.setup ≠ PaymentMode.payment ∧
     countEv (modeEntry .setup) (PaymentFlows.submit baseCEnv .payment) = 0) :=
  ⟨C2_amended_callback_discipline.1 baseCEnv .payment,
   by decide,
   C2_amended_callback_discipline.2.1 baseCEnv .payment .setup (by decide)⟩

/-- C6: when the Stripe input-submission step reports an error, `submit()`
aborts with only that step traced — no backend call — and invokes the
error callback with that very error; more generally every submit sequence
runs each step at most once (no retry), and a failing step's error is
caught once at the top level and routed to the error callback, no
callback having fired inside the try block. -/
theorem C6_single_error_boundary :
    (∀ env mode e, env.elementsSubmit = some e →
       PaymentFlows.submit env mode = [.elementsSubmitCall, .onErrorCb e]) ∧
    (∀ env mode, (PaymentFlows.submit env mode).Nodup) ∧
    (∀ env mode tr e, PaymentFlows.submitCore env mode = (tr, .error e) →
       PaymentFlows.submit env mode = tr ++ [.onErrorCb e] ∧
       completions tr = 0 ∧ errorCbs tr = 0) := by
  refine ⟨?_, ?_, ?_⟩
  · intro env mode e h
    unfold PaymentFlows.submit PaymentFlows.submitCore
    rw [h]
    rfl
  · intro env mode
    exact (submit_stats env mode).2.1
  · intro env mode tr e h
    obtain ⟨hc, he, _, _, _⟩ := submitCore_stats env mode
    rw [h] at hc he
    simp only [] at hc he
    refine ⟨?_, by simpa [okCount] using hc, he⟩
    unfold PaymentFlows.submit
    rw [h]

/-- Witness for C6 at a concrete environment whose input submission
reports an error. -/
theorem C6_witness :
    wCEnvFail.elementsSubmit = some wErr ∧
    PaymentFlows.submit wCEnvFail .payment = [.elementsSubmitCall, .onErrorCb wErr] :=
  ⟨rfl, C6_single_error_boundary.1 wCEnvFail .payment wErr rfl⟩

/-- C8, counterexample: the PayPal button's `onCancel` branch makes no
backend call and fires no callback, but it does NOT revert the
alternative-wallet UI — from the selected state, `isPayPalSelected` stays
true instead of returning to the primary widget. -/
theorem C8_counterexample_cancel_no_revert :
    (PaymentElementComponent.onCancelHandler wSelState).2 = [] ∧
    ¬ ((PaymentElementComponent.onCancelHandler wSelState).1.isPayPalSelected = false) := by
  decide

/-- C8, amended: on provider cancellation the `onCancel` branch makes no
backend call and invokes neither callback, and it leaves the widget state
exactly as it was — the alternative wallet stays selected rather than
reverting to the primary widget. -/
theorem C8_amended_cancel_noop (s : PaymentElementComponent.ElementState) :
    PaymentElementComponent.onCancelHandler s = (s, []) := rfl

/-- C9: from any mounted state where the alternative wallet is active, a
change event on the primary element or a click on its container returns
the selection to the primary widget, restores its opacity and pointer
events, and hides the alternative wallet's action control. -/
theorem C9_primary_interaction_reverts
    (s : PaymentElementComponent.ElementState)
    (hsel : s.isPayPalSelected = true)
    (hw : s.dom.hasPaypalWrapper = true)
    (hc : s.dom.hasStripeContainer = true)
    (i : PaymentElementComponent.Interaction)
    (hi : i = .stripeChange ∨ i = .stripeContainerClick) :
    (PaymentElementComponent.handleInteraction s i).isPayPalSelected = false ∧
    (PaymentElementComponent.handleInteraction s i).dom.stripeOpacity = "1" ∧
    (PaymentElementComponent.handleInteraction s i).dom.stripePointerEvents = "auto" ∧
    (PaymentElementComponent.handleInteraction s i).dom.paypalWrapperDisplay = "none" := by
  rcases hi with h | h <;> subst h <;>
    by_cases ho : s.dom.hasPaypalOption = true <;>
      simp [PaymentElementComponent.handleInteraction, hsel,
        PaymentElementComponent.deselectPayPal, ho, hw, hc]

/-- Witness for C9 at the concrete selected state. -/
theorem C9_witness :
    (wSelState.isPayPalSelected = true ∧
     wSelState.dom.hasPaypalWrapper = true ∧
     wSelState.dom.hasStripeContainer = true) ∧
    ((PaymentElementComponent.handleInteraction wSelState .stripeChange).isPayPalSelected
        = false ∧
     (PaymentElementComponent.handleInteraction wSelState .stripeChange).dom.stripeOpacity
        = "1" ∧
     (PaymentElementComponent.handleInteraction
        wSelState .stripeChange).dom.stripePointerEvents = "auto" ∧
     (PaymentElementComponent.handleInteraction
        wSelState .stripeChange).dom.paypalWrapperDisplay = "none") :=
  ⟨⟨rfl, rfl, rfl⟩,
   C9_primary_interaction_reverts wSelState rfl rfl rfl .stripeChange (Or.inl rfl)⟩

/-- C10: whenever the fetched PayPal configuration carries a non-positive
cart total, the button's `createOrder` callback raises the
cart-total-must-be-positive error and routes it to the error callback
without ever calling the provider's order-creation primitive. -/
theorem C10_zero_amount_guard (config : PayPalConfig)
    (create : ProviderOrderReq → Except Err String) (h : config.amount ≤ 0) :
    PaymentElementComponent.createOrderCallback config create =
      ([.onErrorCb PaymentElementComponent.zeroTotalErr],
       .error PaymentElementComponent.zeroTotalErr) := by
  have hcast : ((config.amount : ℚ)) ≤ 0 := by exact_mod_cast h
  have hq : ((config.amount : ℚ) / 100) ≤ 0 := by
    rw [div_nonpos_iff]
    right
    exact ⟨hcast, by norm_num⟩
  unfold PaymentElementComponent.createOrderCallback
  rw [if_pos hq]

/-- Witness for C10 at the zero-amount configuration. -/
theorem C10_witness :
    wCfgZero.amount ≤ 0 ∧
    PaymentElementComponent.createOrderCallback wCfgZero wCreate =
      ([.onErrorCb PaymentElementComponent.zeroTotalErr],
       .error PaymentElementComponent.zeroTotalErr) :=
  ⟨by decide, C10_zero_amount_guard wCfgZero wCreate (by decide)⟩

/-- C1: whenever the end-to-end alternative-wallet settlement invokes the
completion callback, the trace is exactly the client api call, then the
server's settlement sequence in which the payment-record creation strictly
precedes the order post, then the completion callback; and the backend
payment record referenced by the settlement result is durably in the final
backend state. -/
theorem C1_payment_precedes_order_precedes_completion
    (cenv : ClientEnv) (senv : ServerEnv) (st : Backend) (oid : String)
    (tr : List Event) (st' : Backend) (r : PaymentResult)
    (h : settlement cenv senv st oid = (tr, st'))
    (hmem : Event.onCompleteCb r ∈ tr) :
    ∃ (cid : String) (cart updatedCart : CartRec) (p : PaymentRec)
      (odraft : OrderDraft) (rest : List Event),
      tr = Event.captureApiCall oid ::
        ([.getCartCall (some cid), .getPaymentAmountCall cart.id,
          .createPaymentCall p.draft,
          .addPaymentCall cart.id cart.version (paymentIdStr p),
          .orderGetCartCall updatedCart.id, .postOrderCall odraft] ++
         (Event.onCompleteCb r :: rest)) ∧
      p ∈ st'.payments ∧ p.interfaceId = oid ∧
      r.paymentReference = paymentIdStr p := by
  unfold settlement at h
  rcases hs : PayPalPaymentService.capturePayPalOrder senv st oid with ⟨str, sst, res⟩
  rw [hs] at h
  simp only [] at h
  obtain ⟨htr, hst'⟩ := Prod.mk.injEq .. ▸ h
  have hnc := capture_no_complete senv st oid r
  rw [hs] at hnc
  simp only [] at hnc
  cases res with
  | error e =>
    exfalso
    rw [← htr] at hmem
    unfold PaymentFlows.createPayPalPaymentCont at hmem
    simp [List.mem_cons, List.mem_append] at hmem
    exact hnc hmem
  | ok result =>
    obtain ⟨cid, cart, updatedCart, p, odraft, hi, hf, hnum, hint, hpay,
      hfup, hver, hover, href, hstr⟩ := capture_ok hs
    obtain ⟨rest, hcont, hnorest⟩ := cont_ok_shape cenv oid result
    rw [← htr, hcont] at hmem
    simp only [List.mem_cons, List.mem_append] at hmem
    have hr : r = { isSuccess := true, paymentReference := result.paymentReference,
                    paymentIntent := oid, orderId := some result.ctOrderId,
                    orderNumber := result.orderNumber } := by
      rcases hmem with hmem | hmem | hmem | hmem
      · exact absurd hmem (by simp)
      · exact absurd hmem hnc
      · exact Event.onCompleteCb.inj hmem
      · exact absurd hmem (hnorest r)
    refine ⟨cid, cart, updatedCart, p, odraft, rest, ?_, ?_, hint, ?_⟩
    · rw [← htr, hstr, hcont, hr]
    · rw [← hst', hpay]
      simp
    · rw [hr]
      simpa using href

/-- Witness for C1 at the concrete healthy settlement run. -/
theorem C1_witness :
    (settlement baseCEnv wSEnv wBackend "EC-1" =
       ((settlement baseCEnv wSEnv wBackend "EC-1").1,
        (settlement baseCEnv wSEnv wBackend "EC-1").2) ∧
     Event.onCompleteCb wRes ∈ (settlement baseCEnv wSEnv wBackend "EC-1").1) ∧
    (∃ (cid : String) (cart updatedCart : CartRec) (p : PaymentRec)
       (odraft : OrderDraft) (rest : List Event),
       (settlement baseCEnv wSEnv wBackend "EC-1").1 = Event.captureApiCall "EC-1" ::
         ([.getCartCall (some cid), .getPaymentAmountCall cart.id,
           .createPaymentCall p.draft,
           .addPaymentCall cart.id cart.version (paymentIdStr p),
           .orderGetCartCall updatedCart.id, .postOrderCall odraft] ++
          (Event.onCompleteCb wRes :: rest)) ∧
       p ∈ ((settlement baseCEnv wSEnv wBackend "EC-1").2).payments ∧
       p.interfaceId = "EC-1" ∧
       wRes.paymentReference = paymentIdStr p) :=
  ⟨⟨rfl, by decide⟩,
   C1_payment_precedes_order_precedes_completion baseCEnv wSEnv wBackend "EC-1"
     (settlement baseCEnv wSEnv wBackend "EC-1").1
     (settlement baseCEnv wSEnv wBackend "EC-1").2 wRes rfl (by decide)⟩

/-- C4: every order post of `createOrderFromCart` carries the version of
the cart as re-fetched by id immediately before posting — the trace is
exactly re-fetch then post — and within the settlement flow any posted
version is the successor of the version at which the payment was attached,
i.e. the post-attach version, never a version captured earlier. -/
theorem C4_order_uses_refetched_version :
    (∀ (env : ServerEnv) (st : Backend) (cart : CartRec) (tr : List Event)
       (st' : Backend) (r : Except Err OrderRec) (draft : OrderDraft),
       createOrderFromCart env st cart = (tr, st', r) →
       Event.postOrderCall draft ∈ tr →
       ∃ latest, st.findCart cart.id = some latest ∧
         draft.version = latest.version ∧ draft.cartId = cart.id ∧
         tr = [.orderGetCartCall cart.id, .postOrderCall draft]) ∧
    (∀ (env : ServerEnv) (st : Backend) (oid : String) (tr : List Event)
       (st' : Backend) (r : Except Err CaptureResponse) (draft : OrderDraft)
       (cid2 : String) (v : Nat) (pid : String),
       PayPalPaymentService.capturePayPalOrder env st oid = (tr, st', r) →
       Event.postOrderCall draft ∈ tr →
       Event.addPaymentCall cid2 v pid ∈ tr →
       draft.version = v + 1) :=
  ⟨fun _ _ _ _ _ _ _ h hm => createOrderFromCart_version h hm,
   fun _ _ _ _ _ _ _ _ _ _ h hp ha => capture_post_version h hp ha⟩

/-- Witness for C4 at the concrete order-client run and settlement run. -/
theorem C4_witness :
    ((createOrderFromCart wSEnv wBackend wCart =
        ([.orderGetCartCall "cart-1", .postOrderCall wODraft],
         wStAfterOrder, .ok wOrderRec) ∧
      Event.postOrderCall wODraft ∈
        [Event.orderGetCartCall "cart-1", Event.postOrderCall wODraft]) ∧
     (∃ latest, wBackend.findCart wCart.id = some latest ∧
        wODraft.version = latest.version ∧ wODraft.cartId = wCart.id ∧
        [Event.orderGetCartCall "cart-1", Event.postOrderCall wODraft] =
          [.orderGetCartCall wCart.id, .postOrderCall wODraft])) ∧
    ((Event.postOrderCall wPostDraft ∈ wCap1.1 ∧
      Event.addPaymentCall "cart-1" 5 "ct-payment-0" ∈ wCap1.1) ∧
     wPostDraft.version = 5 + 1) :=
  ⟨⟨⟨by decide, by decide⟩,
    C4_order_uses_refetched_version.1 wSEnv wBackend wCart
      [.orderGetCartCall "cart-1", .postOrderCall wODraft]
      wStAfterOrder (.ok wOrderRec) wODraft (by decide) (by decide)⟩,
   ⟨⟨by decide, by decide⟩,
    C4_order_uses_refetched_version.2 wSEnv wBackend "EC-1"
      wCap1.1 wCap1.2.1 wCap1.2.2 wPostDraft "cart-1" 5 "ct-payment-0"
      rfl (by decide) (by decide)⟩⟩

/-- C5: two settlements of the same provider order id against the same
cart both perform the create-payment step — no idempotency check keyed on
the provider order id precedes it — and the backend ends up with two
distinct payment records, both carrying that provider order id, each
referenced by its run's settlement response. -/
theorem C5_no_idempotency_two_records
    (senv : ServerEnv) (st st1 st2 : Backend) (oid : String)
    (tr1 tr2 : List Event) (res1 res2 : CaptureResponse)
    (h1 : PayPalPaymentService.capturePayPalOrder senv st oid = (tr1, st1, .ok res1))
    (h2 : PayPalPaymentService.capturePayPalOrder senv st1 oid = (tr2, st2, .ok res2)) :
    ∃ (p1 p2 : PaymentRec) (d1 d2 : PaymentDraft),
      Event.createPaymentCall d1 ∈ tr1 ∧ Event.createPaymentCall d2 ∈ tr2 ∧
      st2.payments = st.payments ++ [p1, p2] ∧
      p1.num ≠ p2.num ∧
      p1.interfaceId = oid ∧ p2.interfaceId = oid ∧
      res1.paymentReference = paymentIdStr p1 ∧
      res2.paymentReference = paymentIdStr p2 := by
  obtain ⟨cidA, cartA, updA, p1, odA, hiA, hfA, hnumA, hintA, hpayA,
    _, _, _, hrefA, htrA⟩ := capture_ok h1
  obtain ⟨cidB, cartB, updB, p2, odB, hiB, hfB, hnumB, hintB, hpayB,
    _, _, _, hrefB, htrB⟩ := capture_ok h2
  refine ⟨p1, p2, p1.draft, p2.draft, ?_, ?_, ?_, ?_, hintA, hintB, hrefA, hrefB⟩
  · rw [htrA]
    simp
  · rw [htrB]
    simp
  · rw [hpayB, hpayA]
    simp
  · rw [hnumA, hnumB, hpayA]
    simp [List.length_append]

/-- Witness for C5 at the concrete healthy backend: the two runs return
`ct-payment-0` and `ct-payment-1`. -/
theorem C5_witness :
    (PayPalPaymentService.capturePayPalOrder wSEnv wBackend "EC-1" =
       (wCap1.1, wSt1, .ok wRes1) ∧
     PayPalPaymentService.capturePayPalOrder wSEnv wSt1 "EC-1" =
       (wCap2.1, wCap2.2.1, .ok wRes2)) ∧
    (∃ (p1 p2 : PaymentRec) (d1 d2 : PaymentDraft),
       Event.createPaymentCall d1 ∈ wCap1.1 ∧ Event.createPaymentCall d2 ∈ wCap2.1 ∧
       (wCap2.2.1).payments = wBackend.payments ++ [p1, p2] ∧
       p1.num ≠ p2.num ∧
       p1.interfaceId = "EC-1" ∧ p2.interfaceId = "EC-1" ∧
       wRes1.paymentReference = paymentIdStr p1 ∧
       wRes2.paymentReference = paymentIdStr p2) :=
  ⟨⟨by decide, by decide⟩,
   C5_no_idempotency_two_records wSEnv wBackend wSt1 wCap2.2.1 "EC-1"
     wCap1.1 wCap2.1 wRes1 wRes2 (by decide) (by decide)⟩

/-- C7: the guarded settlement variant fails with the context error when
the request context resolves no cart id, and with the cart-not-found error
when the backend reports no cart for the resolved id; in both cases no
backend call beyond the lookup is made and the backend state — in
particular its payment records — is untouched. -/
theorem C7_context_and_notfound_failures :
    (∀ (env : ServerEnv) (st : Backend) (oid : String),
       truthy env.cartIdFromContext = false →
       PayPalPaymentService.capturePayPalOrderChecked env st oid =
         ([], st, .error PayPalPaymentService.cartContextError)) ∧
    (∀ (env : ServerEnv) (st : Backend) (oid cid : String),
       env.cartIdFromContext = some cid → cid ≠ "" →
       env.fault st.tick = none → st.findCart cid = none →
       PayPalPaymentService.capturePayPalOrderChecked env st oid =
         ([.getCartCall (some cid)], { st with tick := st.tick + 1 },
          .error (PayPalPaymentService.cartNotFoundError cid))) := by
  constructor
  · intro env st oid h
    unfold PayPalPaymentService.capturePayPalOrderChecked
    simp [h]
  · intro env st oid cid h1 h2 h3 h4
    unfold PayPalPaymentService.capturePayPalOrderChecked
    have ht : truthy env.cartIdFromContext = true := by
      rw [h1]
      simpa [truthy] using h2
    rw [if_pos ht]
    have hj : jsOr env.cartIdFromContext "" = cid := by
      rw [h1]
      simp [jsOr, h2]
    rw [hj]
    have hraw : getCartRawOp env st (some cid) =
        ({ st with tick := st.tick + 1 }, .ok none) := by
      unfold getCartRawOp opStep
      rw [h3]
      have : Backend.findCart { st with tick := st.tick + 1 } cid = none := by
        simpa [Backend.findCart] using h4
      simp [this]
    simp only []
    rw [hraw]

/-- Witness for C7: a context without a cart id, and a context whose cart
id the backend does not know. -/
theorem C7_witness :
    (truthy wSEnvNoCtx.cartIdFromContext = false ∧
     PayPalPaymentService.capturePayPalOrderChecked wSEnvNoCtx wBackend "EC-1" =
       ([], wBackend, .error PayPalPaymentService.cartContextError)) ∧
    (wSEnvGhost.cartIdFromContext = some "cart-9" ∧
     PayPalPaymentService.capturePayPalOrderChecked wSEnvGhost wBackend "EC-1" =
       ([.getCartCall (some "cart-9")], { wBackend with tick := wBackend.tick + 1 },
        .error (PayPalPaymentService.cartNotFoundError "cart-9"))) :=
  ⟨⟨rfl, C7_context_and_notfound_failures.1 wSEnvNoCtx wBackend "EC-1" rfl⟩,
   ⟨rfl, C7_context_and_notfound_failures.2 wSEnvGhost wBackend "EC-1" "cart-9"
      rfl (by decide) rfl (by decide)⟩⟩

end StripeCT
